import Mathlib

/-!
Verification model of the YSTECH PCS CAN protocol codec and session controller
(`dcdc_app/protocol.py`, `dcdc_app/controller.py`).

Conventions of the embedding:
* Python `int` values that are only ever non-negative in the code are modelled
  as `Nat`; values that can go negative (signed raw fields, engineering values
  after truncation) as `Int`.
* Python `float` engineering values are modelled as exact rationals `ℚ`
  (`0.1` becomes `1/10`); `int(x)` truncation toward zero is `pyInt`.
* A payload (`bytes`) is a `List Nat` of byte values `< 256`.
* A Python function that can raise returns an `Option`; `none` models the
  exception, `some` the normal return value.
-/

namespace PCS

/-! ## Constants (protocol.py) -/

def CAN_PRIORITY : Nat := 6

def CONTROLLER_ADDR : Nat := 0xB4

def PCS_DEFAULT_ADDR : Nat := 0xFA

def BROADCAST_ADDR : Nat := 0x00

/-! ## CAN ID helpers (protocol.py lines 49-83) -/

/-- Result of `parse_can_id`: the six J1939 fields of a 29-bit identifier. -/
structure CanIdFields where
  priority : Nat
  reserved : Nat
  data_page : Nat
  pf : Nat
  ps : Nat
  sa : Nat
deriving DecidableEq, Repr

/-- `build_can_id(pf, ps, sa, priority)`:
`((priority & 0x07) << 26) | (pf << 16) | (ps << 8) | (sa & 0xFF)`. -/
def build_can_id (pf ps sa : Nat) (priority : Nat) : Nat :=
  ((priority &&& 0x07) <<< 26) ||| (pf <<< 16) ||| (ps <<< 8) ||| (sa &&& 0xFF)

/-- `parse_can_id(can_id)`: pure bit-mask extraction of the six fields. -/
def parse_can_id (can_id : Nat) : CanIdFields :=
  { priority := (can_id >>> 26) &&& 0x07
    reserved := (can_id >>> 25) &&& 0x01
    data_page := (can_id >>> 24) &&& 0x01
    pf := (can_id >>> 16) &&& 0xFF
    ps := (can_id >>> 8) &&& 0xFF
    sa := can_id &&& 0xFF }

/-- `make_tx_id(pf, pcs_addr)`: controller → PCS identifier. -/
def make_tx_id (pf : Nat) (pcs_addr : Nat) : Nat :=
  build_can_id pf pcs_addr CONTROLLER_ADDR CAN_PRIORITY

/-- `make_rx_id(pf, pcs_addr)`: PCS → controller identifier. -/
def make_rx_id (pf : Nat) (pcs_addr : Nat) : Nat :=
  build_can_id pf CONTROLLER_ADDR pcs_addr CAN_PRIORITY

/-! ## Python-semantics helpers -/

/-- Python `int(x)`: truncation toward zero of the (exact, rational) value. -/
def pyInt (q : ℚ) : ℤ := if 0 ≤ q then ⌊q⌋ else ⌈q⌉

/-- `bytes([v])` for a single Python int: raises unless `0 ≤ v ≤ 255`. -/
def byteVal (v : ℤ) : Option Nat :=
  if 0 ≤ v ∧ v < 256 then some v.toNat else none

/-- `_u16_be(value)`: `struct.pack(">H", value & 0xFFFF)`, big-endian. -/
def u16_be (value : ℤ) : List Nat :=
  [(value % 65536).toNat / 256, (value % 65536).toNat % 256]

/-- `_i32_be(value)`: `struct.pack(">i", value)`; raises outside the signed
32-bit range, otherwise the 4 big-endian two's-complement bytes. -/
def i32_be (value : ℤ) : Option (List Nat) :=
  if -2147483648 ≤ value ∧ value < 2147483648 then
    some [(value % 4294967296).toNat / 16777216 % 256,
          (value % 4294967296).toNat / 65536 % 256,
          (value % 4294967296).toNat / 256 % 256,
          (value % 4294967296).toNat % 256]
  else none

/-- `struct.pack(">h", value)`: signed 16-bit big-endian, raises out of range. -/
def i16_be (value : ℤ) : Option (List Nat) :=
  if -32768 ≤ value ∧ value < 32768 then
    some [(value % 65536).toNat / 256, (value % 65536).toNat % 256]
  else none

/-- `_pad8(data)`: `data.ljust(8, b"\x00")`. -/
def pad8 (data : List Nat) : List Nat :=
  data ++ List.replicate (8 - data.length) 0

/-! ## Working modes and per-mode parameter resolutions (protocol.py 113-184) -/

/-- `MODE_PARAMS`: mode code → list of (name, unit, resolution) for params 1-4. -/
def MODE_PARAMS (mode : Nat) : Option (List (String × String × ℚ)) :=
  match mode with
  | 0x02 => some [("voltage_setpoint", "V", 1/1000)]
  | 0x08 => some [("voltage_setpoint", "V", 1/1000),
                  ("max_charge_current", "A", 1/1000),
                  ("max_discharge_current", "A", 1/1000)]
  | 0x21 => some [("current_setpoint", "A", 1/1000)]
  | 0x22 => some [("power_setpoint", "W", 1/1000)]
  | 0x23 => some [("resistance_setpoint", "ohm", 1/1000)]
  | 0x24 => some [("start_current", "A", 1/1000),
                  ("end_current", "A", 1/1000),
                  ("cycle_time", "s", 1/1000)]
  | 0x25 => some [("start_power", "W", 1/1000),
                  ("end_power", "W", 1/1000),
                  ("cycle_time", "s", 1/1000)]
  | 0x26 => some [("magnification", "", 1/1000)]
  | 0x27 => some [("start_voltage", "V", 1/1000),
                  ("end_voltage", "V", 1/1000),
                  ("cycle_time", "s", 1/1000)]
  | 0x28 => some [("current_1", "A", 1/1000),
                  ("current_2", "A", 1/1000),
                  ("cycle_time", "s", 1/100),
                  ("duty_cycle", "%", 1/100)]
  | 0x29 => some [("voltage_setpoint", "V", 1/1000),
                  ("current_setpoint", "A", 1/1000),
                  ("end_current", "A", 1/1000)]
  | 0x2A => some [("resistance_1", "ohm", 1/1000),
                  ("resistance_2", "ohm", 1/1000),
                  ("cycle_time", "s", 1/100),
                  ("duty_cycle", "%", 1/100)]
  | 0x2B => some [("power_1", "W", 1/1000),
                  ("power_2", "W", 1/1000),
                  ("cycle_time", "s", 1/100),
                  ("duty_cycle", "%", 1/100)]
  | 0x2C => some [("current_setpoint", "A", 1/1000),
                  ("time_1", "s", 1/1000),
                  ("time_2", "s", 1/1000),
                  ("time_3", "s", 1/1000)]
  | 0x40 => some [("active_power", "W", 1/1000),
                  ("reactive_power", "Var", 1/1000)]
  | 0x41 => some [("inverter_voltage", "V", 1/1000),
                  ("inverter_frequency", "Hz", 1/1000)]
  | 0x61 => some [("voltage_1", "V", 1/1000),
                  ("voltage_2", "V", 1/1000),
                  ("cycle_time", "s", 1/100),
                  ("duty_cycle", "%", 1/100)]
  | 0x91 => some []
  | 0x94 => some []
  | _ => none

/-- `params_info[i][2] if len(params_info) > i else 0.001`. -/
def resAt (info : List (String × String × ℚ)) (i : Nat) : ℚ :=
  match info.get? i with
  | some (_, _, r) => r
  | none => 1/1000

/-! ## Command encoders (controller → PCS), protocol.py 450-729.
Each returns `some (can_id, payload)`, or `none` when the Python original
raises (a byte value out of [0,255] or a packed field out of range). -/

/-- Frame 1: read PCS protection parameters. -/
def encode_read_protection_params (param_type : ℤ) (pcs_addr : Nat) :
    Option (Nat × List Nat) := do
  let b ← byteVal param_type
  pure (make_tx_id 0x01 pcs_addr, pad8 [b])

/-- Frame 5: set protection parameter 1 (DC voltage/current limits, res 0.1). -/
def encode_set_protection_params1
    (max_output_v min_output_v max_charge_a max_discharge_a : ℚ)
    (pcs_addr : Nat) : Option (Nat × List Nat) :=
  some (make_tx_id 0x05 pcs_addr,
    u16_be (pyInt (max_output_v / (1/10))) ++
    u16_be (pyInt (min_output_v / (1/10))) ++
    u16_be (pyInt (max_charge_a / (1/10))) ++
    u16_be (pyInt (max_discharge_a / (1/10))))

/-- Frame 6: set protection parameter 2 (power / AC voltage limits). -/
def encode_set_protection_params2
    (max_charge_kw max_discharge_kw ac_v_upper ac_v_lower : ℚ)
    (pcs_addr : Nat) : Option (Nat × List Nat) :=
  some (make_tx_id 0x06 pcs_addr,
    u16_be (pyInt (max_charge_kw / (1/10))) ++
    u16_be (pyInt (max_discharge_kw / (1/10))) ++
    u16_be (pyInt (ac_v_upper / (1/10))) ++
    u16_be (pyInt (ac_v_lower / (1/10))))

/-- Frame 7: set protection parameter 3 (frequency limits). -/
def encode_set_protection_params3
    (discharge_freq_upper charge_freq_lower ac_freq_upper ac_freq_lower : ℚ)
    (pcs_addr : Nat) : Option (Nat × List Nat) := do
  let b1 ← byteVal (pyInt ac_freq_upper)
  let b2 ← byteVal (pyInt ac_freq_lower)
  pure (make_tx_id 0x07 pcs_addr,
    u16_be (pyInt (discharge_freq_upper / (1/10))) ++
    u16_be (pyInt (charge_freq_lower / (1/10))) ++
    [b1, b2] ++ [0, 0])

/-- Frame 9: set PCS device time. -/
def encode_set_time (year month day hour minute second : ℤ) (pcs_addr : Nat) :
    Option (Nat × List Nat) := do
  let bmo ← byteVal month
  let bd ← byteVal day
  let bh ← byteVal hour
  let bmi ← byteVal minute
  let bs ← byteVal second
  pure (make_tx_id 0x09 pcs_addr, u16_be year ++ [bmo, bd, bh, bmi, bs, 0])

/-- Frame 11: set working mode. -/
def encode_set_working_mode (mode : ℤ) (pcs_addr : Nat) :
    Option (Nat × List Nat) := do
  let b ← byteVal mode
  pure (make_tx_id 0x0B pcs_addr, pad8 [b])

/-- Frame 12: set mode parameters 1 and 2 (32-bit signed, per-mode resolution). -/
def encode_set_mode_params12 (param1 param2 : ℚ) (mode : Nat) (pcs_addr : Nat) :
    Option (Nat × List Nat) := do
  let info := (MODE_PARAMS mode).getD []
  let d1 ← i32_be (pyInt (param1 / resAt info 0))
  let d2 ← i32_be (pyInt (param2 / resAt info 1))
  pure (make_tx_id 0x0C pcs_addr, d1 ++ d2)

/-- Frame 13: set mode parameters 3 and 4 (32-bit signed, per-mode resolution). -/
def encode_set_mode_params34 (param3 param4 : ℚ) (mode : Nat) (pcs_addr : Nat) :
    Option (Nat × List Nat) := do
  let info := (MODE_PARAMS mode).getD []
  let d3 ← i32_be (pyInt (param3 / resAt info 2))
  let d4 ← i32_be (pyInt (param4 / resAt info 3))
  pure (make_tx_id 0x0D pcs_addr, d3 ++ d4)

/-- Frame 15: start/stop command, fault clearing, power-on self-start flag. -/
def encode_start_stop (start clear_fault auto_start : Bool) (pcs_addr : Nat) :
    Option (Nat × List Nat) :=
  some (make_tx_id 0x0F pcs_addr,
    pad8 [if start then 1 else 0, if clear_fault then 1 else 0,
          if auto_start then 1 else 0])

/-- Frame 26 (0x181A): heartbeat; DC current carries a fixed +1000 A offset
applied before the 0.1 scaling. -/
def encode_heartbeat (dc_voltage dc_current : ℚ) (running_state : ℤ)
    (pcs_addr : Nat) : Option (Nat × List Nat) := do
  let rs ← byteVal running_state
  pure (make_tx_id 0x1A pcs_addr,
    u16_be (pyInt (dc_voltage / (1/10))) ++
    u16_be (pyInt ((dc_current + 1000) / (1/10))) ++
    [rs] ++ [0, 0, 0])

/-- Frame 27 (0x181B): set bus voltage and reactive power. -/
def encode_set_bus_voltage_reactive (bus_voltage reactive_power : ℚ)
    (pcs_addr : Nat) : Option (Nat × List Nat) :=
  some (make_tx_id 0x1B pcs_addr,
    u16_be (pyInt (bus_voltage / (1/10))) ++
    u16_be (pyInt (reactive_power / (1/10))) ++ [0, 0, 0, 0])

/-- Frame 28 (0x181F): set IOBUS output (`io & 1` per channel). -/
def encode_set_io (io1 io2 io3 io4 : ℤ) (pcs_addr : Nat) :
    Option (Nat × List Nat) :=
  some (make_tx_id 0x1F pcs_addr,
    [(io1 % 2).toNat, (io2 % 2).toNat, (io3 % 2).toNat, (io4 % 2).toNat] ++
    [0, 0, 0, 0])

/-- Frame 0x1826: enable/disable split phase power control. -/
def encode_set_split_phase_enable (enable : Bool) (pcs_addr : Nat) :
    Option (Nat × List Nat) :=
  some (make_tx_id 0x26 pcs_addr, pad8 [if enable then 1 else 0])

/-- Frame 0x1828: set inverter phase selection. -/
def encode_set_inverter_phase (phase : ℤ) (pcs_addr : Nat) :
    Option (Nat × List Nat) := do
  let b ← byteVal phase
  pure (make_tx_id 0x28 pcs_addr, pad8 [b])

/-- Frame 0x182A: set reactive power control mode and power factor. -/
def encode_set_reactive_control (mode : ℤ) (power_factor : ℚ) (pcs_addr : Nat) :
    Option (Nat × List Nat) := do
  let m ← byteVal mode
  let pfb ← i16_be (pyInt (power_factor / (1/1000)))
  pure (make_tx_id 0x2A pcs_addr, [m] ++ pfb ++ [0, 0, 0, 0, 0])

/-- Frame 0x182C: set on/off grid mode. -/
def encode_set_grid_mode (mode : ℤ) (pcs_addr : Nat) :
    Option (Nat × List Nat) := do
  let b ← byteVal mode
  pure (make_tx_id 0x2C pcs_addr, pad8 [b])

/-- Frame 0x182E: set module parallel mode. -/
def encode_set_module_parallel (mode num_modules hall_ratio : ℤ)
    (pcs_addr : Nat) : Option (Nat × List Nat) := do
  let m ← byteVal mode
  let n ← byteVal num_modules
  pure (make_tx_id 0x2E pcs_addr, [m, n] ++ u16_be hall_ratio ++ [0, 0, 0, 0])

/-- Frame 0x1821: set A/B/C phase active power (resolution 0.1 kW). -/
def encode_set_phase_power (phase_a_kw phase_b_kw phase_c_kw : ℚ)
    (pcs_addr : Nat) : Option (Nat × List Nat) :=
  some (make_tx_id 0x21 pcs_addr,
    u16_be (pyInt (phase_a_kw / (1/10))) ++
    u16_be (pyInt (phase_b_kw / (1/10))) ++
    u16_be (pyInt (phase_c_kw / (1/10))) ++ [0, 0])

/-- Frame 30 (0x181D): read special data from PCS. -/
def encode_read_special_data (data_type : ℤ) (pcs_addr : Nat) :
    Option (Nat × List Nat) := do
  let b ← byteVal data_type
  pure (make_tx_id 0x1D pcs_addr, pad8 [b])

/-! ## Hex formatting (Python `f-string` `{:02X}` / `{:04X}`) -/

def hexDigit (n : Nat) : Char :=
  if n = 10 then 'A' else if n = 11 then 'B' else if n = 12 then 'C'
  else if n = 13 then 'D' else if n = 14 then 'E' else if n = 15 then 'F'
  else Char.ofNat (48 + n)

/-- Big-endian hex digits of `n` (empty for 0), with explicit fuel so the
definition is structurally recursive. -/
def hexDigitsAux : Nat → Nat → List Char
  | 0, _ => []
  | _ + 1, 0 => []
  | fuel + 1, n => hexDigitsAux fuel (n / 16) ++ [hexDigit (n % 16)]

def hexStr (n : Nat) : List Char := hexDigitsAux n n

/-- `f"{n:0wX}"`: upper-case hex, left-padded with zeros to `width`. -/
def hexPad (width n : Nat) : String :=
  String.mk (List.replicate (width - (hexStr n).length) '0' ++ hexStr n)

/-! ## Running states and fault codes (protocol.py 191-246) -/

def RunningState.LONG_PAUSE : Nat := 1
def RunningState.SHORT_STOP : Nat := 2
def RunningState.LONG_IDLE : Nat := 3
def RunningState.SHORT_IDLE : Nat := 4
def RunningState.STOP : Nat := 5
def RunningState.FAULT : Nat := 6
def RunningState.AC_CONSTANT_POWER : Nat := 7
def RunningState.POWER_FAILURE : Nat := 8
def RunningState.SELF_CHECK : Nat := 9
def RunningState.SOFT_START : Nat := 10
def RunningState.CONSTANT_VOLTAGE : Nat := 11
def RunningState.CONSTANT_CURRENT : Nat := 12
def RunningState.STANDBY : Nat := 13
def RunningState.OFF_GRID_INVERTER : Nat := 14

/-- `FAULT_CODES`: static fault-code → description table. -/
def FAULT_CODES (code : Nat) : Option String :=
  match code with
  | 0x800D => some "CAN1 equipment failure"
  | 0x800E => some "CAN2 equipment failure"
  | 0x800F => some "485-1 communication failure"
  | 0x8010 => some "485-2 communication failure"
  | 0x8011 => some "DSP soft start timeout"
  | 0x8012 => some "Emergency stop button pressed"
  | 0x8013 => some "Gun head temperature exceeds limit"
  | 0x8014 => some "Detection point 1 voltage abnormality"
  | 0x8015 => some "Network disconnection"
  | 1 => some "Battery voltage too high / over limit"
  | 2 => some "Battery voltage low / over limit"
  | 3 => some "Battery reverse connection"
  | 4 => some "Current over limit"
  | 5 => some "Overtemperature fault (>90C)"
  | 6 => some "Soft start timeout (>10s)"
  | 15 => some "Overcurrent count exceeds limit"
  | 16 => some "Overvoltage count exceeds limit"
  | 17 => some "Power limit exceeded"
  | 18 => some "Emergency stop button pressed"
  | 26 => some "Slave failure"
  | 257 => some "High grid voltage fault (>264V)"
  | 258 => some "Low grid voltage fault (<176V)"
  | 265 => some "Input voltage negative phase sequence"
  | 280 => some "Radiator temperature high fault (>90C)"
  | _ => none

/-- `fault_description(code)`: description, with a designated value for 0 and
a fallback for unrecognized codes. -/
def fault_description (code : Nat) : String :=
  if code = 0 then "No fault"
  else (FAULT_CODES code).getD
    ("Internal failure (code 0x" ++ hexPad 4 code ++ ") - contact factory")

/-! ## Decoded message records (protocol.py 253-404) -/

structure ProtectionParams1 where
  max_output_voltage : ℚ
  min_output_voltage : ℚ
  max_charge_current : ℚ
  max_discharge_current : ℚ
deriving DecidableEq, Repr

structure ProtectionParams2 where
  max_charge_power : ℚ
  max_discharge_power : ℚ
  ac_voltage_upper : ℚ
  ac_voltage_lower : ℚ
deriving DecidableEq, Repr

structure ProtectionParams3 where
  discharge_freq_upper : ℚ
  charge_freq_lower : ℚ
  ac_freq_upper : ℚ
  ac_freq_lower : ℚ
deriving DecidableEq, Repr

structure DCData where
  voltage : ℚ
  current : ℚ
  power : ℚ
  inlet_temperature : ℚ
deriving DecidableEq, Repr

structure CapacityEnergy where
  capacity : ℚ
  energy : ℚ
  outlet_temperature : ℚ
deriving DecidableEq, Repr

structure StatusData where
  running_state : Nat
  fault_code : Nat
deriving DecidableEq, Repr

/-- `StatusData.is_fault` property. -/
def StatusData.is_fault (s : StatusData) : Bool :=
  s.running_state == RunningState.FAULT || s.fault_code != 0

structure GridVoltage where
  u_voltage : ℚ
  v_voltage : ℚ
  w_voltage : ℚ
deriving DecidableEq, Repr

structure GridCurrent where
  u_current : ℚ
  v_current : ℚ
  w_current : ℚ
  power_factor : ℚ
deriving DecidableEq, Repr

structure SystemPower where
  active_power : ℚ
  reactive_power : ℚ
  apparent_power : ℚ
  frequency : ℚ
deriving DecidableEq, Repr

structure LoadVoltage where
  u_voltage : ℚ
  v_voltage : ℚ
  w_voltage : ℚ
deriving DecidableEq, Repr

structure LoadCurrent where
  u_current : ℚ
  v_current : ℚ
  w_current : ℚ
deriving DecidableEq, Repr

structure LoadPower where
  active_power : ℚ
  reactive_power : ℚ
  apparent_power : ℚ
deriving DecidableEq, Repr

structure PhasePower where
  phase : String
  active_power : ℚ
  reactive_power : ℚ
  apparent_power : ℚ
deriving DecidableEq, Repr

structure HighResDC where
  voltage : ℚ
  current : ℚ
deriving DecidableEq, Repr

structure IOAndAD where
  io1 : Nat
  io2 : Nat
  io3 : Nat
  io4 : Nat
  ad1_voltage : ℚ
  ad2_voltage : ℚ
deriving DecidableEq, Repr

structure VersionInfo where
  hw_v : Nat
  hw_b : Nat
  hw_d : Nat
  sw_v : Nat
  sw_b : Nat
  sw_d : Nat
deriving DecidableEq, Repr

/-! ## Decoding helpers (protocol.py 736-753); `none` models the struct /
index error raised when the payload is too short. -/

/-- `data[i]`: raises `IndexError` when `i` is out of range. -/
def byteAt (data : List Nat) (i : Nat) : Option Nat :=
  if i < data.length then some (data.getD i 0) else none

/-- `_u16(data, offset)`: `struct.unpack_from(">H", data, offset)`. -/
def u16 (data : List Nat) (offset : Nat) : Option Nat :=
  if offset + 2 ≤ data.length then
    some (data.getD offset 0 * 256 + data.getD (offset + 1) 0)
  else none

/-- `_i16(data, offset)`: `struct.unpack_from(">h", data, offset)`. -/
def i16 (data : List Nat) (offset : Nat) : Option ℤ :=
  if offset + 2 ≤ data.length then
    some (if data.getD offset 0 * 256 + data.getD (offset + 1) 0 < 32768
          then (data.getD offset 0 * 256 + data.getD (offset + 1) 0 : ℤ)
          else (data.getD offset 0 * 256 + data.getD (offset + 1) 0 : ℤ) - 65536)
  else none

/-- `_u32(data, offset)`: `struct.unpack_from(">I", data, offset)`. -/
def u32 (data : List Nat) (offset : Nat) : Option Nat :=
  if offset + 4 ≤ data.length then
    some (data.getD offset 0 * 16777216 + data.getD (offset + 1) 0 * 65536 +
          data.getD (offset + 2) 0 * 256 + data.getD (offset + 3) 0)
  else none

/-! ## Message decoders (protocol.py 756-918) -/

def decode_protection_params1 (data : List Nat) : Option ProtectionParams1 := do
  let a ← u16 data 0
  let b ← u16 data 2
  let c ← u16 data 4
  let d ← u16 data 6
  pure { max_output_voltage := (a : ℚ) * (1/10), min_output_voltage := (b : ℚ) * (1/10),
         max_charge_current := (c : ℚ) * (1/10), max_discharge_current := (d : ℚ) * (1/10) }

def decode_protection_params2 (data : List Nat) : Option ProtectionParams2 := do
  let a ← u16 data 0
  let b ← u16 data 2
  let c ← u16 data 4
  let d ← u16 data 6
  pure { max_charge_power := (a : ℚ) * (1/10), max_discharge_power := (b : ℚ) * (1/10),
         ac_voltage_upper := (c : ℚ) * (1/10), ac_voltage_lower := (d : ℚ) * (1/10) }

def decode_protection_params3 (data : List Nat) : Option ProtectionParams3 := do
  let a ← u16 data 0
  let b ← u16 data 2
  let c ← byteAt data 4
  let d ← byteAt data 5
  pure { discharge_freq_upper := (a : ℚ) * (1/10), charge_freq_lower := (b : ℚ) * (1/10),
         ac_freq_upper := (c : ℚ) * 1, ac_freq_lower := (d : ℚ) * 1 }

def decode_dc_data (data : List Nat) : Option DCData := do
  let a ← u16 data 0
  let b ← u16 data 2
  let c ← u16 data 4
  let d ← u16 data 6
  pure { voltage := (a : ℚ) * (1/10), current := (b : ℚ) * (1/10) - 1000,
         power := (c : ℚ) * (1/10), inlet_temperature := (d : ℚ) * (1/10) - 50 }

def decode_capacity_energy (data : List Nat) : Option CapacityEnergy := do
  let a ← u16 data 0
  let b ← u32 data 2
  let c ← u16 data 6
  pure { capacity := (a : ℚ) * (1/10), energy := (b : ℚ) * (1/10),
         outlet_temperature := (c : ℚ) * (1/10) - 50 }

def decode_status (data : List Nat) : Option StatusData := do
  let a ← byteAt data 0
  let b ← u16 data 2
  pure { running_state := a, fault_code := b }

def decode_grid_voltage (data : List Nat) : Option GridVoltage := do
  let a ← u16 data 0
  let b ← u16 data 2
  let c ← u16 data 4
  pure { u_voltage := (a : ℚ) * (1/10), v_voltage := (b : ℚ) * (1/10),
         w_voltage := (c : ℚ) * (1/10) }

def decode_grid_current (data : List Nat) : Option GridCurrent := do
  let a ← u16 data 0
  let b ← u16 data 2
  let c ← u16 data 4
  let d ← i16 data 6
  pure { u_current := (a : ℚ) * (1/10), v_current := (b : ℚ) * (1/10),
         w_current := (c : ℚ) * (1/10), power_factor := (d : ℚ) * (1/10) }

def decode_system_power (data : List Nat) : Option SystemPower := do
  let a ← u16 data 0
  let b ← u16 data 2
  let c ← u16 data 4
  let d ← u16 data 6
  pure { active_power := (a : ℚ) * (1/10), reactive_power := (b : ℚ) * (1/10),
         apparent_power := (c : ℚ) * (1/10), frequency := (d : ℚ) * (1/10) }

def decode_load_voltage (data : List Nat) : Option LoadVoltage := do
  let a ← u16 data 0
  let b ← u16 data 2
  let c ← u16 data 4
  pure { u_voltage := (a : ℚ) * (1/10), v_voltage := (b : ℚ) * (1/10),
         w_voltage := (c : ℚ) * (1/10) }

def decode_load_current (data : List Nat) : Option LoadCurrent := do
  let a ← u16 data 0
  let b ← u16 data 2
  let c ← u16 data 4
  pure { u_current := (a : ℚ) * (1/10), v_current := (b : ℚ) * (1/10),
         w_current := (c : ℚ) * (1/10) }

def decode_load_power (data : List Nat) : Option LoadPower := do
  let a ← u16 data 0
  let b ← u16 data 2
  let c ← u16 data 4
  pure { active_power := (a : ℚ) * (1/10), reactive_power := (b : ℚ) * (1/10),
         apparent_power := (c : ℚ) * (1/10) }

def decode_phase_power (data : List Nat) (phase : String) : Option PhasePower := do
  let a ← u16 data 0
  let b ← u16 data 2
  let c ← u16 data 4
  pure { phase := phase, active_power := (a : ℚ) * (1/10),
         reactive_power := (b : ℚ) * (1/10), apparent_power := (c : ℚ) * (1/10) }

def decode_high_res_dc (data : List Nat) : Option HighResDC := do
  let a ← u32 data 0
  let b ← u32 data 4
  pure { voltage := (a : ℚ) * (1/1000), current := (b : ℚ) * (1/1000) - 1000 }

def decode_io_ad (data : List Nat) : Option IOAndAD := do
  let a ← byteAt data 0
  let b ← byteAt data 1
  let c ← byteAt data 2
  let d ← byteAt data 3
  let e ← u16 data 4
  let f ← u16 data 6
  pure { io1 := a, io2 := b, io3 := c, io4 := d,
         ad1_voltage := (e : ℚ) * (1/1000), ad2_voltage := (f : ℚ) * (1/1000) }

/-- `decode_set_reply`: True iff byte 0, or byte 1 when present, is `0x01`. -/
def decode_set_reply (data : List Nat) : Option Bool :=
  match data with
  | [] => none
  | b0 :: rest =>
    some (b0 == 1 || (match rest with | [] => false | b1 :: _ => b1 == 1))

def decode_version (data : List Nat) : Option VersionInfo := do
  let a ← byteAt data 0
  let b ← byteAt data 1
  let c ← byteAt data 2
  let d ← byteAt data 3
  let e ← byteAt data 4
  let f ← byteAt data 5
  pure { hw_v := a, hw_b := b, hw_d := c, sw_v := d, sw_b := e, sw_d := f }

/-! ## Message dispatcher (protocol.py 926-983) -/

/-- The possible decoded records, as a tagged sum (the Python code passes them
around dynamically typed). -/
inductive RxDecoded where
  | prot1 (p : ProtectionParams1)
  | prot2 (p : ProtectionParams2)
  | prot3 (p : ProtectionParams3)
  | setReply (ok : Bool)
  | dcData (d : DCData)
  | capacity (c : CapacityEnergy)
  | status (s : StatusData)
  | gridVoltage (g : GridVoltage)
  | gridCurrent (g : GridCurrent)
  | systemPower (p : SystemPower)
  | loadVoltage (l : LoadVoltage)
  | loadCurrent (l : LoadCurrent)
  | loadPower (l : LoadPower)
  | ioAd (x : IOAndAD)
  | hiResDC (h : HighResDC)
  | phasePower (p : PhasePower)
  | version (v : VersionInfo)
deriving DecidableEq, Repr

/-- `_RX_DECODERS`: PF code → (decoder, PCSState field name or None). -/
def rxDecoders (pf : Nat) :
    Option ((List Nat → Option RxDecoded) × Option String) :=
  match pf with
  | 0x02 => some (fun d => (decode_protection_params1 d).map RxDecoded.prot1, none)
  | 0x03 => some (fun d => (decode_protection_params2 d).map RxDecoded.prot2, none)
  | 0x04 => some (fun d => (decode_protection_params3 d).map RxDecoded.prot3, none)
  | 0x08 => some (fun d => (decode_set_reply d).map RxDecoded.setReply, none)
  | 0x0A => some (fun d => (decode_set_reply d).map RxDecoded.setReply, none)
  | 0x0E => some (fun d => (decode_set_reply d).map RxDecoded.setReply, none)
  | 0x10 => some (fun d => (decode_set_reply d).map RxDecoded.setReply, none)
  | 0x11 => some (fun d => (decode_dc_data d).map RxDecoded.dcData, some "dc")
  | 0x12 => some (fun d => (decode_capacity_energy d).map RxDecoded.capacity, some "capacity_energy")
  | 0x13 => some (fun d => (decode_status d).map RxDecoded.status, some "status")
  | 0x14 => some (fun d => (decode_grid_voltage d).map RxDecoded.gridVoltage, some "grid_voltage")
  | 0x15 => some (fun d => (decode_grid_current d).map RxDecoded.gridCurrent, some "grid_current")
  | 0x16 => some (fun d => (decode_system_power d).map RxDecoded.systemPower, some "system_power")
  | 0x17 => some (fun d => (decode_load_voltage d).map RxDecoded.loadVoltage, some "load_voltage")
  | 0x18 => some (fun d => (decode_load_current d).map RxDecoded.loadCurrent, some "load_current")
  | 0x19 => some (fun d => (decode_load_power d).map RxDecoded.loadPower, some "load_power")
  | 0x1C => some (fun d => (decode_set_reply d).map RxDecoded.setReply, none)
  | 0x20 => some (fun d => (decode_io_ad d).map RxDecoded.ioAd, some "io_ad")
  | 0x39 => some (fun d => (decode_high_res_dc d).map RxDecoded.hiResDC, some "dc_hires")
  | _ => none

/-- `f"pf_0x{pf:02X}"`, the fallback message-kind name. -/
def pfHexName (pf : Nat) : String := "pf_0x" ++ hexPad 2 pf

/-- `decode_rx_message(can_id, data)`: dispatch on the PF field. `none` models
an exception escaping from the selected decoder; `some (none, none)` is the
normal (None, None) return for an unrecognized PF. -/
def decode_rx_message (can_id : Nat) (data : List Nat) :
    Option (Option String × Option RxDecoded) :=
  let pf := (parse_can_id can_id).pf
  if pf = 0x23 then
    (decode_phase_power data "A").map (fun d => (some "phase_a_power", some (RxDecoded.phasePower d)))
  else if pf = 0x24 then
    (decode_phase_power data "B").map (fun d => (some "phase_b_power", some (RxDecoded.phasePower d)))
  else if pf = 0x25 then
    (decode_phase_power data "C").map (fun d => (some "phase_c_power", some (RxDecoded.phasePower d)))
  else if pf = 0x34 then
    (decode_version data).map (fun v => (some "arm_version", some (RxDecoded.version v)))
  else if pf = 0x35 then
    (decode_version data).map (fun v => (some "dsp_version", some (RxDecoded.version v)))
  else
    match rxDecoders pf with
    | none => some (none, none)
    | some (decoder, state_field) =>
      (decoder data).map (fun d => (some (state_field.getD (pfHexName pf)), some d))

/-! ## Aggregated PCS state (protocol.py 407-423). The Python dataclass is
dynamically typed and updated via `setattr`, so each slot is modelled as an
`RxDecoded` value. -/

structure PCSState where
  dc : RxDecoded
  dc_hires : RxDecoded
  capacity_energy : RxDecoded
  status : RxDecoded
  grid_voltage : RxDecoded
  grid_current : RxDecoded
  system_power : RxDecoded
  load_voltage : RxDecoded
  load_current : RxDecoded
  load_power : RxDecoded
  phase_a_power : RxDecoded
  phase_b_power : RxDecoded
  phase_c_power : RxDecoded
  io_ad : RxDecoded
deriving DecidableEq, Repr

/-- Default-initialized `PCSState()`. -/
def PCSState.init : PCSState :=
  { dc := RxDecoded.dcData ⟨0, 0, 0, 0⟩
    dc_hires := RxDecoded.hiResDC ⟨0, 0⟩
    capacity_energy := RxDecoded.capacity ⟨0, 0, 0⟩
    status := RxDecoded.status ⟨0, 0⟩
    grid_voltage := RxDecoded.gridVoltage ⟨0, 0, 0⟩
    grid_current := RxDecoded.gridCurrent ⟨0, 0, 0, 0⟩
    system_power := RxDecoded.systemPower ⟨0, 0, 0, 0⟩
    load_voltage := RxDecoded.loadVoltage ⟨0, 0, 0⟩
    load_current := RxDecoded.loadCurrent ⟨0, 0, 0⟩
    load_power := RxDecoded.loadPower ⟨0, 0, 0⟩
    phase_a_power := RxDecoded.phasePower ⟨"A", 0, 0, 0⟩
    phase_b_power := RxDecoded.phasePower ⟨"B", 0, 0, 0⟩
    phase_c_power := RxDecoded.phasePower ⟨"C", 0, 0, 0⟩
    io_ad := RxDecoded.ioAd ⟨0, 0, 0, 0, 0, 0⟩ }

/-- The field names of `PCSState`; `hasattr(self.state, name)`. -/
def pcsSlotNames : List String :=
  ["dc", "dc_hires", "capacity_energy", "status", "grid_voltage",
   "grid_current", "system_power", "load_voltage", "load_current",
   "load_power", "phase_a_power", "phase_b_power", "phase_c_power", "io_ad"]

def pcsHasSlot (name : String) : Bool := pcsSlotNames.contains name

/-- `setattr(state, name, d)` for a field name; identity for other names. -/
def setSlot (s : PCSState) (name : String) (d : RxDecoded) : PCSState :=
  if name = "dc" then { s with dc := d }
  else if name = "dc_hires" then { s with dc_hires := d }
  else if name = "capacity_energy" then { s with capacity_energy := d }
  else if name = "status" then { s with status := d }
  else if name = "grid_voltage" then { s with grid_voltage := d }
  else if name = "grid_current" then { s with grid_current := d }
  else if name = "system_power" then { s with system_power := d }
  else if name = "load_voltage" then { s with load_voltage := d }
  else if name = "load_current" then { s with load_current := d }
  else if name = "load_power" then { s with load_power := d }
  else if name = "phase_a_power" then { s with phase_a_power := d }
  else if name = "phase_b_power" then { s with phase_b_power := d }
  else if name = "phase_c_power" then { s with phase_c_power := d }
  else if name = "io_ad" then { s with io_ad := d }
  else s

/-- `getattr(state, name)` for a field name. -/
def getSlot (s : PCSState) (name : String) : Option RxDecoded :=
  if name = "dc" then some s.dc
  else if name = "dc_hires" then some s.dc_hires
  else if name = "capacity_energy" then some s.capacity_energy
  else if name = "status" then some s.status
  else if name = "grid_voltage" then some s.grid_voltage
  else if name = "grid_current" then some s.grid_current
  else if name = "system_power" then some s.system_power
  else if name = "load_voltage" then some s.load_voltage
  else if name = "load_current" then some s.load_current
  else if name = "load_power" then some s.load_power
  else if name = "phase_a_power" then some s.phase_a_power
  else if name = "phase_b_power" then some s.phase_b_power
  else if name = "phase_c_power" then some s.phase_c_power
  else if name = "io_ad" then some s.io_ad
  else none

/-! ## Receive-path model (controller.py `_rx_loop`, lines 292-326).
Processing one received extended frame is a pure function from the
controller's mutable data (aggregated state, waiter registry, reply buffer)
plus the registered observer callbacks, to the updated data and the ordered
list of visible effects. -/

/-- An observer callback: receives `(message_kind_name, decoded_record)` and
may raise (`Except.error`). -/
def Callback : Type := String → Option RxDecoded → Except Unit Unit

structure CtrlModel where
  state : PCSState
  pending : List Nat
  lastReply : List (Nat × Option RxDecoded)

/-- Visible effects of the receive path for one frame, in execution order. -/
inductive RxEvent where
  | stateUpdate (slot : String)
  | wakeWaiter (pf : Nat)
  | callbackOk (i : Nat)
  | callbackErr (i : Nat)
deriving DecidableEq, Repr

/-- Invoke every callback in order (`i` is the position of the first one); a
raising callback is caught and logged (`callbackErr`), and the remaining
callbacks still run. -/
def runCallbacks (cbs : List Callback) (name : String) (d : Option RxDecoded)
    (i : Nat) : List RxEvent :=
  match cbs with
  | [] => []
  | cb :: rest =>
    (match cb name d with
     | Except.ok _ => RxEvent.callbackOk i
     | Except.error _ => RxEvent.callbackErr i) :: runCallbacks rest name d (i + 1)

/-- One `_rx_loop` iteration body for a received extended frame: decode (an
exception is caught and treated as (None, None)), then update the aggregated
state slot, then wake a matching reply waiter, then notify observers. -/
def processFrame (m : CtrlModel) (cbs : List Callback) (can_id : Nat)
    (data : List Nat) : CtrlModel × List RxEvent :=
  match (decode_rx_message can_id data).getD (none, none) with
  | (none, _) => (m, [])
  | (some name, decoded) =>
    let stEv :=
      match decoded with
      | some d =>
        if pcsHasSlot name then (setSlot m.state name d, [RxEvent.stateUpdate name])
        else (m.state, ([] : List RxEvent))
      | none => (m.state, ([] : List RxEvent))
    let pf := (parse_can_id can_id).pf
    let wake :=
      if m.pending.contains pf then
        (((pf, decoded) :: m.lastReply), [RxEvent.wakeWaiter pf])
      else (m.lastReply, ([] : List RxEvent))
    let cbEvents := runCallbacks cbs name decoded 0
    ({ state := stEv.1, pending := m.pending, lastReply := wake.1 },
     stEv.2 ++ wake.2 ++ cbEvents)

/-- Execution phase of a receive-path effect: state update (0), waiter wakeup
(1), observer notification (2). -/
def evPhase : RxEvent → Nat
  | RxEvent.stateUpdate _ => 0
  | RxEvent.wakeWaiter _ => 1
  | RxEvent.callbackOk _ => 2
  | RxEvent.callbackErr _ => 2

/-- The effect list never goes back to an earlier phase: all state updates
precede all waiter wakeups, which precede all observer notifications. -/
def phaseOrdered (l : List RxEvent) : Prop :=
  l.Pairwise (fun a b => evPhase a ≤ evPhase b)

/-- An observer that always raises. -/
def cbAlwaysRaises : Callback := fun _ _ => Except.error ()

/-- An observer that always returns normally. -/
def cbAlwaysSucceeds : Callback := fun _ _ => Except.ok ()

/-! ## Blocking-command traces (controller.py 125-253).
Each synchronous command method is modelled by the ordered list of its
transport / waiter-registry effects. -/

inductive CtrlEvent where
  | send (pf : Nat)
  | registerWaiter (pf : Nat)
  | waitReply (pf : Nat)
  | unregisterWaiter (pf : Nat)
  | sleep (seconds : ℚ)
deriving DecidableEq, Repr

/-- `_wait_for_reply(pf)`: registers the waiter, blocks, and removes the
registry entry in a `finally` block, i.e. on reply, timeout and exception
alike. -/
def waitForReplyTrace (pf : Nat) : List CtrlEvent :=
  [CtrlEvent.registerWaiter pf, CtrlEvent.waitReply pf,
   CtrlEvent.unregisterWaiter pf]

/-- `reset_faults()`: stop command with clear-fault flag, then wait on 0x10. -/
def resetFaultsTrace : List CtrlEvent :=
  [CtrlEvent.send 0x0F] ++ waitForReplyTrace 0x10

/-- `enable(clear_faults)`: optional fault clearing and settle delay, then the
start command, then wait on 0x10. -/
def enableTrace (clear_faults is_fault : Bool) : List CtrlEvent :=
  (if clear_faults && is_fault then resetFaultsTrace ++ [CtrlEvent.sleep (1/2)]
   else []) ++ [CtrlEvent.send 0x0F] ++ waitForReplyTrace 0x10

/-- `disable()`: stop command, then wait on 0x10. -/
def disableTrace : List CtrlEvent :=
  [CtrlEvent.send 0x0F] ++ waitForReplyTrace 0x10

/-- `set_working_mode(mode)`: mode-select command, then wait on 0x0E. -/
def setWorkingModeTrace : List CtrlEvent :=
  [CtrlEvent.send 0x0B] ++ waitForReplyTrace 0x0E

/-- `set_mode_parameters(mode, params)`: params-1&2 frame, params-3&4 frame
only when more than two parameters were supplied, then one wait on 0x0E. -/
def setModeParametersTrace (nparams : Nat) : List CtrlEvent :=
  [CtrlEvent.send 0x0C] ++ (if 2 < nparams then [CtrlEvent.send 0x0D] else [])
    ++ waitForReplyTrace 0x0E

/-- `{0x01: 0x02, 0x02: 0x03, 0x03: 0x04}.get(param_type, 0x02)`. -/
def protectionReplyPf (param_type : Nat) : Nat :=
  if param_type = 0x01 then 0x02
  else if param_type = 0x02 then 0x03
  else if param_type = 0x03 then 0x04
  else 0x02

/-- `read_protection_params(param_type)`: read command, then wait on the
per-type reply code. -/
def readProtectionParamsTrace (param_type : Nat) : List CtrlEvent :=
  [CtrlEvent.send 0x01] ++ waitForReplyTrace (protectionReplyPf param_type)

/-- `read_version()`: read-special-data command, then wait on 0x34. -/
def readVersionTrace : List CtrlEvent :=
  [CtrlEvent.send 0x1D] ++ waitForReplyTrace 0x34

/-- `read_working_mode()`: read-special-data command, then wait on 0x36. -/
def readWorkingModeTrace : List CtrlEvent :=
  [CtrlEvent.send 0x1D] ++ waitForReplyTrace 0x36

/-- Position of the first occurrence of `e`, or the length when absent. -/
def evIndex (tr : List CtrlEvent) (e : CtrlEvent) : Nat := tr.indexOf e

/-- The waiter for reply code `rpf` is registered before the request frame
with code `spf` is transmitted. -/
def registersBeforeSend (tr : List CtrlEvent) (rpf spf : Nat) : Prop :=
  evIndex tr (CtrlEvent.registerWaiter rpf) < evIndex tr (CtrlEvent.send spf)

/-- Every waiter registration in the trace is matched by an unregistration,
so no registry entry survives the operation. -/
def waiterBalanced (tr : List CtrlEvent) : Prop :=
  ∀ pf, tr.count (CtrlEvent.registerWaiter pf) =
    tr.count (CtrlEvent.unregisterWaiter pf)

/-- All reply codes whose registry entries the trace touches. -/
def waiterCodes (tr : List CtrlEvent) : List Nat :=
  tr.filterMap (fun e => match e with
    | CtrlEvent.registerWaiter pf => some pf
    | CtrlEvent.unregisterWaiter pf => some pf
    | _ => none)

/-- The request is transmitted first, the reply waiter is registered after,
and the trace ends by removing the waiter-registry entry. -/
def cleanupShape (tr : List CtrlEvent) (spf rpf : Nat) : Prop :=
  evIndex tr (CtrlEvent.send spf) < evIndex tr (CtrlEvent.registerWaiter rpf) ∧
  tr.getLast? = some (CtrlEvent.unregisterWaiter rpf) ∧
  waiterBalanced tr

/-! ### Arithmetic normal form of the identifier codec -/

lemma land_255 (x : Nat) : x &&& 255 = x % 256 := by
  have h := Nat.and_pow_two_sub_one_eq_mod x 8
  norm_num at h
  exact h

lemma land_7 (x : Nat) : x &&& 7 = x % 8 := by
  have h := Nat.and_pow_two_sub_one_eq_mod x 3
  norm_num at h
  exact h

lemma land_1 (x : Nat) : x &&& 1 = x % 2 := by
  simp

lemma or_disjoint (a b k : Nat) (hb : b < 2 ^ k) :
    (2 ^ k * a) ||| b = 2 ^ k * a + b :=
  (Nat.mul_add_lt_is_or hb a).symm

/-- For 8-bit `pf` and `ps`, the packed identifier is the expected sum of
shifted fields. (`pf` and `ps` are *not* masked by `build_can_id`; `priority`
and `sa` are.) -/
lemma build_can_id_eq (pf ps sa priority : Nat) (hpf : pf ≤ 255) (hps : ps ≤ 255) :
    build_can_id pf ps sa priority =
      priority % 8 * 2 ^ 26 + pf * 2 ^ 16 + ps * 2 ^ 8 + sa % 256 := by
  unfold build_can_id
  rw [land_7, land_255]
  rw [Nat.shiftLeft_eq, Nat.shiftLeft_eq, Nat.shiftLeft_eq]
  have h1 : priority % 8 * 2 ^ 26 ||| pf * 2 ^ 16 =
      priority % 8 * 2 ^ 26 + pf * 2 ^ 16 := by
    rw [Nat.mul_comm (priority % 8) (2 ^ 26)]
    exact or_disjoint (priority % 8) (pf * 2 ^ 16) 26 (by omega)
  have h2 : (priority % 8 * 2 ^ 26 + pf * 2 ^ 16) ||| ps * 2 ^ 8 =
      priority % 8 * 2 ^ 26 + pf * 2 ^ 16 + ps * 2 ^ 8 := by
    have hrw : priority % 8 * 2 ^ 26 + pf * 2 ^ 16 =
        2 ^ 16 * (priority % 8 * 2 ^ 10 + pf) := by ring
    rw [hrw, or_disjoint (priority % 8 * 2 ^ 10 + pf) (ps * 2 ^ 8) 16 (by omega)]
  have h3 : (priority % 8 * 2 ^ 26 + pf * 2 ^ 16 + ps * 2 ^ 8) ||| sa % 256 =
      priority % 8 * 2 ^ 26 + pf * 2 ^ 16 + ps * 2 ^ 8 + sa % 256 := by
    have hrw : priority % 8 * 2 ^ 26 + pf * 2 ^ 16 + ps * 2 ^ 8 =
        2 ^ 8 * (priority % 8 * 2 ^ 18 + pf * 2 ^ 8 + ps) := by ring
    rw [hrw, or_disjoint (priority % 8 * 2 ^ 18 + pf * 2 ^ 8 + ps) (sa % 256) 8 (by omega)]
  rw [h1, h2, h3]

/-- Full behaviour of `parse_can_id ∘ build_can_id` for 8-bit `pf`, `ps` and
arbitrary `sa`, `priority`: `priority` is masked to 3 bits, `sa` to 8 bits,
`reserved` and `data_page` come out 0, and `pf`, `ps` round-trip exactly. -/
lemma parse_build (pf ps sa priority : Nat) (hpf : pf ≤ 255) (hps : ps ≤ 255) :
    parse_can_id (build_can_id pf ps sa priority) =
      { priority := priority % 8, reserved := 0, data_page := 0,
        pf := pf, ps := ps, sa := sa % 256 } := by
  rw [build_can_id_eq pf ps sa priority hpf hps]
  unfold parse_can_id
  have hm := Nat.mod_lt priority (show 0 < 8 by norm_num)
  have hs := Nat.mod_lt sa (show 0 < 256 by norm_num)
  simp only [Nat.shiftRight_eq_div_pow, land_255, land_7, land_1, CanIdFields.mk.injEq]
  norm_num
  refine ⟨?_, ?_, ?_, ?_, ?_, ?_⟩ <;> omega

/-- C1: for every command_code, dest, src in [0,255], parsing the identifier
built by `build_can_id(command_code, dest, src)` with the default priority
yields back exactly pf = command_code, ps = dest, sa = src, together with
reserved = 0 and data_page = 0. -/
theorem C1_identifier_roundtrip (command_code dest src : Nat)
    (h1 : command_code ≤ 255) (h2 : dest ≤ 255) (h3 : src ≤ 255) :
    (parse_can_id (build_can_id command_code dest src CAN_PRIORITY)).pf = command_code ∧
    (parse_can_id (build_can_id command_code dest src CAN_PRIORITY)).ps = dest ∧
    (parse_can_id (build_can_id command_code dest src CAN_PRIORITY)).sa = src ∧
    (parse_can_id (build_can_id command_code dest src CAN_PRIORITY)).reserved = 0 ∧
    (parse_can_id (build_can_id command_code dest src CAN_PRIORITY)).data_page = 0 := by
  rw [parse_build _ _ _ _ h1 h2]
  refine ⟨rfl, rfl, ?_, rfl, rfl⟩
  exact Nat.mod_eq_of_lt (by omega)

/-- C1 witness: the round-trip at command_code 0x11, dest 0xB4, src 0xFA. -/
theorem C1_identifier_roundtrip_witness :
    (parse_can_id (build_can_id 0x11 0xB4 0xFA CAN_PRIORITY)).pf = 0x11 ∧
    (parse_can_id (build_can_id 0x11 0xB4 0xFA CAN_PRIORITY)).ps = 0xB4 ∧
    (parse_can_id (build_can_id 0x11 0xB4 0xFA CAN_PRIORITY)).sa = 0xFA ∧
    (parse_can_id (build_can_id 0x11 0xB4 0xFA CAN_PRIORITY)).reserved = 0 ∧
    (parse_can_id (build_can_id 0x11 0xB4 0xFA CAN_PRIORITY)).data_page = 0 :=
  C1_identifier_roundtrip 0x11 0xB4 0xFA (by norm_num) (by norm_num) (by norm_num)

/-- C5 counterexample: `build_can_id` does not mask `pf` to 8 bits. At
`pf = 0x100` the out-of-range bit lands in the `data_page` field of the
identifier instead of being truncated away, so an out-of-range `pf` input
disturbs another field, contrary to the claim. -/
theorem C5_build_masks_counterexample :
    (parse_can_id (build_can_id 0x100 0 0 CAN_PRIORITY)).data_page = 1 ∧
    (parse_can_id (build_can_id 0x100 0 0 CAN_PRIORITY)).pf = 0 := by
  decide

/-- C5 amended: `build_can_id` masks only `priority` (3 bits) and `sa`
(8 bits); `pf` and `ps` are packed unmasked, so only for `pf`, `ps` in
[0,255] does every field of the result equal its input (truncated for
`priority` and `sa`) with no field disturbing another. -/
theorem C5_build_masks_amended (pf ps sa priority : Nat)
    (hpf : pf ≤ 255) (hps : ps ≤ 255) :
    parse_can_id (build_can_id pf ps sa priority) =
      { priority := priority % 8, reserved := 0, data_page := 0,
        pf := pf, ps := ps, sa := sa % 256 } :=
  parse_build pf ps sa priority hpf hps

/-- C5 witness: in-range pf/ps with out-of-range sa and priority, which are
truncated to their widths. -/
theorem C5_build_masks_witness :
    parse_can_id (build_can_id 0x11 0xFA 0x1B4 14) =
      { priority := 14 % 8, reserved := 0, data_page := 0,
        pf := 0x11, ps := 0xFA, sa := 0x1B4 % 256 } :=
  C5_build_masks_amended 0x11 0xFA 0x1B4 14 (by norm_num) (by norm_num)

/-! ### C9: fault classification -/

/-- C9: `StatusData.is_fault` is true iff the running state is FAULT or the
fault code is nonzero; `fault_description 0` is exactly "No fault"; and every
code outside the fault table gets the fallback description (no exception). -/
theorem C9_fault_classification :
    (∀ s : StatusData, s.is_fault = true ↔
      (s.running_state = RunningState.FAULT ∨ s.fault_code ≠ 0)) ∧
    fault_description 0 = "No fault" ∧
    (∀ code, code ≠ 0 → FAULT_CODES code = none →
      fault_description code =
        "Internal failure (code 0x" ++ hexPad 4 code ++ ") - contact factory") := by
  refine ⟨?_, rfl, ?_⟩
  · intro s
    simp [StatusData.is_fault, RunningState.FAULT]
  · intro code h hnone
    simp [fault_description, h, hnone]

/-- C9 witness: a faulted status, and the fallback text for unknown code 7. -/
theorem C9_fault_classification_witness :
    (StatusData.mk RunningState.FAULT 0).is_fault = true ∧
    fault_description 7 =
      "Internal failure (code 0x" ++ hexPad 4 7 ++ ") - contact factory" :=
  ⟨(C9_fault_classification.1 ⟨RunningState.FAULT, 0⟩).mpr (Or.inl rfl),
   C9_fault_classification.2.2 7 (by decide) rfl⟩

/-! ### C3: waiter registration order and cleanup -/

/-- C3 counterexample: `disable()` transmits the stop request *before*
registering its waiter for reply code 0x10 — the registration does not
precede the transmission as claimed. -/
theorem C3_waiter_order_counterexample :
    ¬ registersBeforeSend disableTrace 0x10 0x0F ∧
    evIndex disableTrace (CtrlEvent.send 0x0F) <
      evIndex disableTrace (CtrlEvent.registerWaiter 0x10) := by
  unfold registersBeforeSend
  decide

lemma waiterBalanced_of_codes (tr : List CtrlEvent)
    (h : ∀ pf ∈ waiterCodes tr,
      tr.count (CtrlEvent.registerWaiter pf) =
        tr.count (CtrlEvent.unregisterWaiter pf)) :
    waiterBalanced tr := by
  intro pf
  by_cases hm : pf ∈ waiterCodes tr
  · exact h pf hm
  · have h1 : CtrlEvent.registerWaiter pf ∉ tr := fun hmem =>
      hm (List.mem_filterMap.mpr ⟨CtrlEvent.registerWaiter pf, hmem, rfl⟩)
    have h2 : CtrlEvent.unregisterWaiter pf ∉ tr := fun hmem =>
      hm (List.mem_filterMap.mpr ⟨CtrlEvent.unregisterWaiter pf, hmem, rfl⟩)
    rw [List.count_eq_zero.mpr h1, List.count_eq_zero.mpr h2]

/-- C3 amended: every blocking command transmits its request first and
registers the reply waiter immediately afterwards (inside `_wait_for_reply`),
and on every exit path the trace ends by removing the waiter-registry entry,
leaving the registry balanced. -/
theorem C3_waiter_cleanup_amended :
    (∀ cf isf : Bool, cleanupShape (enableTrace cf isf) 0x0F 0x10) ∧
    cleanupShape disableTrace 0x0F 0x10 ∧
    cleanupShape resetFaultsTrace 0x0F 0x10 ∧
    cleanupShape setWorkingModeTrace 0x0B 0x0E ∧
    (∀ n, cleanupShape (setModeParametersTrace n) 0x0C 0x0E) ∧
    (∀ pt, cleanupShape (readProtectionParamsTrace pt) 0x01 (protectionReplyPf pt)) ∧
    cleanupShape readVersionTrace 0x1D 0x34 ∧
    cleanupShape readWorkingModeTrace 0x1D 0x36 := by
  refine ⟨?_, ?_, ?_, ?_, ?_, ?_, ?_, ?_⟩
  · intro cf isf
    cases cf <;> cases isf <;>
      exact ⟨by decide, by decide, waiterBalanced_of_codes _ (by decide)⟩
  · exact ⟨by decide, by decide, waiterBalanced_of_codes _ (by decide)⟩
  · exact ⟨by decide, by decide, waiterBalanced_of_codes _ (by decide)⟩
  · exact ⟨by decide, by decide, waiterBalanced_of_codes _ (by decide)⟩
  · intro n
    rcases Nat.lt_or_ge 2 n with h | h
    · simp only [setModeParametersTrace, if_pos h]
      exact ⟨by decide, by decide, waiterBalanced_of_codes _ (by decide)⟩
    · simp only [setModeParametersTrace, if_neg (Nat.not_lt.mpr h)]
      exact ⟨by decide, by decide, waiterBalanced_of_codes _ (by decide)⟩
  · intro pt
    by_cases h1 : pt = 0x01
    · subst h1; exact ⟨by decide, by decide, waiterBalanced_of_codes _ (by decide)⟩
    · by_cases h2 : pt = 0x02
      · subst h2; exact ⟨by decide, by decide, waiterBalanced_of_codes _ (by decide)⟩
      · by_cases h3 : pt = 0x03
        · subst h3; exact ⟨by decide, by decide, waiterBalanced_of_codes _ (by decide)⟩
        · simp only [readProtectionParamsTrace, protectionReplyPf,
            if_neg h1, if_neg h2, if_neg h3]
          exact ⟨by decide, by decide, waiterBalanced_of_codes _ (by decide)⟩
  · exact ⟨by decide, by decide, waiterBalanced_of_codes _ (by decide)⟩
  · exact ⟨by decide, by decide, waiterBalanced_of_codes _ (by decide)⟩

/-! ### C6: heartbeat current offset -/

/-- C6: the heartbeat encoder applies the fixed +1000 A offset before the
0.1 scaling: a DC current of exactly 0.0 A produces the raw field value
10000 (bytes 0x27 0x10 at offsets 2-3 of the payload), and any negative
current above -1000 A still encodes to a non-negative raw value. -/
theorem C6_heartbeat_offset :
    pyInt (((0 : ℚ) + 1000) / (1/10)) = 10000 ∧
    encode_heartbeat 0 0 2 PCS_DEFAULT_ADDR =
      some (make_tx_id 0x1A PCS_DEFAULT_ADDR, [0, 0, 39, 16, 2, 0, 0, 0]) ∧
    (∀ c : ℚ, -1000 < c → c < 0 → 0 ≤ pyInt ((c + 1000) / (1/10))) := by
  refine ⟨by norm_num [pyInt], ?_, ?_⟩
  · have h1 : pyInt (0 : ℚ) = 0 := by norm_num [pyInt]
    have h2 : pyInt (10000 : ℚ) = 10000 := by norm_num [pyInt]
    norm_num [encode_heartbeat, byteVal, h1, h2, u16_be]
    decide
  · intro c hlow hneg
    have hq : (0 : ℚ) ≤ (c + 1000) / (1/10) :=
      div_nonneg (by linarith) (by norm_num)
    rw [pyInt, if_pos hq]
    exact Int.le_floor.mpr (by exact_mod_cast hq)

/-- C6 witness: a negative current of -5 A encodes to a non-negative raw. -/
theorem C6_heartbeat_offset_witness :
    0 ≤ pyInt (((-5 : ℚ) + 1000) / (1/10)) :=
  C6_heartbeat_offset.2.2 (-5) (by norm_num) (by norm_num)

/-! ### C4: scale round-trip -/

/-- C4 counterexample: for the protection-parameter pair at resolution
r = 0.1, the engineering value 0.19 V encodes (by truncation) to raw 1 and
decodes to 0.10 V, an error of 0.09 > r/2 = 0.05 — the claimed r/2 bound
fails. -/
theorem C4_scale_roundtrip_counterexample :
    encode_set_protection_params1 (19/100) 0 0 0 PCS_DEFAULT_ADDR =
      some (make_tx_id 0x05 PCS_DEFAULT_ADDR, [0, 1, 0, 0, 0, 0, 0, 0]) ∧
    decode_protection_params1 [0, 1, 0, 0, 0, 0, 0, 0] =
      some { max_output_voltage := 1/10, min_output_voltage := 0,
             max_charge_current := 0, max_discharge_current := 0 } ∧
    ¬ |(1/10 : ℚ) - 19/100| ≤ (1/10) / 2 := by
  refine ⟨?_, ?_, by norm_num [abs]⟩
  · have h1 : pyInt ((19 : ℚ) / 10) = 1 := by norm_num [pyInt]
    have h0 : pyInt (0 : ℚ) = 0 := by norm_num [pyInt]
    norm_num [encode_set_protection_params1, h1, h0, u16_be, Int.toNat_ofNat]
  · norm_num [decode_protection_params1, u16]

/-- C4 amended: with truncation toward zero the round-trip error is bounded
by the full resolution r = 0.1 (strictly), not r/2: the decoded value never
exceeds the input and falls short by less than 0.1. -/
theorem C4_scale_roundtrip_amended (v : ℚ) (h0 : 0 ≤ v) (h1 : v * 10 ≤ 65535) :
    ∀ p rec, encode_set_protection_params1 v 0 0 0 PCS_DEFAULT_ADDR = some p →
      decode_protection_params1 p.2 = some rec →
      rec.max_output_voltage ≤ v ∧ v - rec.max_output_voltage < 1/10 := by
  intro p rec henc hdec
  have hdiv : v / (1/10 : ℚ) = v * 10 := by ring
  have hv10 : (0 : ℚ) ≤ v * 10 := by linarith
  have hfl0 : (0 : ℤ) ≤ ⌊v * 10⌋ := Int.le_floor.mpr (by exact_mod_cast hv10)
  have hflub : ⌊v * 10⌋ < 65536 := by
    have hle : (⌊v * 10⌋ : ℚ) ≤ 65535 := le_trans (Int.floor_le (v * 10)) h1
    have hlt : (⌊v * 10⌋ : ℚ) < 65536 := lt_of_le_of_lt hle (by norm_num)
    exact_mod_cast hlt
  have hpy : pyInt (v / (1/10)) = ⌊v * 10⌋ := by
    rw [pyInt, hdiv, if_pos hv10]
  have h00 : pyInt ((0 : ℚ) / (1/10)) = 0 := by norm_num [pyInt]
  rw [encode_set_protection_params1, hpy, h00] at henc
  have hu0 : u16_be 0 = [0, 0] := rfl
  rw [hu0] at henc
  cases henc
  simp only [decode_protection_params1, u16_be, u16, List.cons_append,
    List.nil_append, List.length_cons, List.length_nil, List.getD] at hdec
  norm_num at hdec
  cases hdec
  have hmod : ⌊v * 10⌋ % 65536 = ⌊v * 10⌋ := Int.emod_eq_of_lt hfl0 hflub
  rw [hmod]
  have hnat : ⌊v * 10⌋.toNat / 256 * 256 + ⌊v * 10⌋.toNat % 256 =
      ⌊v * 10⌋.toNat := by omega
  have hc : ((⌊v * 10⌋.toNat / 256 : ℕ) : ℚ) * 256 + ((⌊v * 10⌋.toNat % 256 : ℕ) : ℚ)
      = ((⌊v * 10⌋.toNat / 256 * 256 + ⌊v * 10⌋.toNat % 256 : ℕ) : ℚ) := by
    push_cast
    ring
  rw [hc, hnat]
  have hcast : ((⌊v * 10⌋.toNat : ℕ) : ℚ) = ((⌊v * 10⌋ : ℤ) : ℚ) := by
    rw [← Int.cast_natCast, Int.toNat_of_nonneg hfl0]
  rw [hcast]
  have hle := Int.floor_le (v * 10)
  have hlt := Int.lt_floor_add_one (v * 10)
  constructor <;> linarith

/-- C4 witness: the amended bound at v = 0.19 V. -/
theorem C4_scale_roundtrip_witness :
    (ProtectionParams1.mk (1/10) 0 0 0).max_output_voltage ≤ (19/100 : ℚ) ∧
    (19/100 : ℚ) - (ProtectionParams1.mk (1/10) 0 0 0).max_output_voltage <
      1/10 :=
  C4_scale_roundtrip_amended (19/100) (by norm_num) (by norm_num)
    (make_tx_id 0x05 PCS_DEFAULT_ADDR, [0, 1, 0, 0, 0, 0, 0, 0])
    (ProtectionParams1.mk (1/10) 0 0 0)
    (by
      have h1 : pyInt ((19 : ℚ) / 10) = 1 := by norm_num [pyInt]
      have h0 : pyInt (0 : ℚ) = 0 := by norm_num [pyInt]
      norm_num [encode_set_protection_params1, h1, h0, u16_be, Int.toNat_ofNat])
    (by norm_num [decode_protection_params1, u16])

/-! ### C7: every command encoder emits exactly 8 bytes -/

lemma i32_be_shape (v : ℤ) (l : List Nat) (h : i32_be v = some l) :
    l = [(v % 4294967296).toNat / 16777216 % 256,
         (v % 4294967296).toNat / 65536 % 256,
         (v % 4294967296).toNat / 256 % 256,
         (v % 4294967296).toNat % 256] := by
  unfold i32_be at h
  split at h
  · exact (Option.some.inj h).symm
  · exact Option.noConfusion h

lemma i16_be_shape (v : ℤ) (l : List Nat) (h : i16_be v = some l) :
    l = [(v % 65536).toNat / 256, (v % 65536).toNat % 256] := by
  unfold i16_be at h
  split at h
  · exact (Option.some.inj h).symm
  · exact Option.noConfusion h

/-- C7: every command encoder of the codec table, on every input where it
returns at all (i.e. every valid input), produces a payload of exactly 8
bytes, and the bytes not carrying data are zero. -/
theorem C7_fixed_payload_length :
    (∀ pt addr p, encode_read_protection_params pt addr = some p →
      p.2.length = 8 ∧ p.2.drop 1 = List.replicate 7 0) ∧
    (∀ a b c d addr p,
      encode_set_protection_params1 a b c d addr = some p → p.2.length = 8) ∧
    (∀ a b c d addr p,
      encode_set_protection_params2 a b c d addr = some p → p.2.length = 8) ∧
    (∀ a b c d addr p, encode_set_protection_params3 a b c d addr = some p →
      p.2.length = 8 ∧ p.2.drop 6 = [0, 0]) ∧
    (∀ y mo d h mi s addr p, encode_set_time y mo d h mi s addr = some p →
      p.2.length = 8 ∧ p.2.drop 7 = [0]) ∧
    (∀ m addr p, encode_set_working_mode m addr = some p →
      p.2.length = 8 ∧ p.2.drop 1 = List.replicate 7 0) ∧
    (∀ a b m addr p,
      encode_set_mode_params12 a b m addr = some p → p.2.length = 8) ∧
    (∀ a b m addr p,
      encode_set_mode_params34 a b m addr = some p → p.2.length = 8) ∧
    (∀ st cl au addr p, encode_start_stop st cl au addr = some p →
      p.2.length = 8 ∧ p.2.drop 3 = List.replicate 5 0) ∧
    (∀ dv dc rs addr p, encode_heartbeat dv dc rs addr = some p →
      p.2.length = 8 ∧ p.2.drop 5 = [0, 0, 0]) ∧
    (∀ bv rp addr p, encode_set_bus_voltage_reactive bv rp addr = some p →
      p.2.length = 8 ∧ p.2.drop 4 = [0, 0, 0, 0]) ∧
    (∀ a b c d addr p, encode_set_io a b c d addr = some p →
      p.2.length = 8 ∧ p.2.drop 4 = [0, 0, 0, 0]) ∧
    (∀ en addr p, encode_set_split_phase_enable en addr = some p →
      p.2.length = 8 ∧ p.2.drop 1 = List.replicate 7 0) ∧
    (∀ ph addr p, encode_set_inverter_phase ph addr = some p →
      p.2.length = 8 ∧ p.2.drop 1 = List.replicate 7 0) ∧
    (∀ m pfq addr p, encode_set_reactive_control m pfq addr = some p →
      p.2.length = 8 ∧ p.2.drop 3 = [0, 0, 0, 0, 0]) ∧
    (∀ m addr p, encode_set_grid_mode m addr = some p →
      p.2.length = 8 ∧ p.2.drop 1 = List.replicate 7 0) ∧
    (∀ m n hr addr p, encode_set_module_parallel m n hr addr = some p →
      p.2.length = 8 ∧ p.2.drop 4 = [0, 0, 0, 0]) ∧
    (∀ a b c addr p, encode_set_phase_power a b c addr = some p →
      p.2.length = 8 ∧ p.2.drop 6 = [0, 0]) ∧
    (∀ dt addr p, encode_read_special_data dt addr = some p →
      p.2.length = 8 ∧ p.2.drop 1 = List.replicate 7 0) := by
  refine ⟨?_, ?_, ?_, ?_, ?_, ?_, ?_, ?_, ?_, ?_, ?_, ?_, ?_, ?_, ?_, ?_, ?_,
    ?_, ?_⟩
  · intro pt addr p h
    cases hb : byteVal pt with
    | none => simp [encode_read_protection_params, hb] at h
    | some b =>
      simp [encode_read_protection_params, hb] at h
      cases h
      simp [pad8]
  · intro a b c d addr p h
    unfold encode_set_protection_params1 at h
    injection h with h
    subst h
    simp [u16_be]
  · intro a b c d addr p h
    unfold encode_set_protection_params2 at h
    injection h with h
    subst h
    simp [u16_be]
  · intro a b c d addr p h
    cases hb1 : byteVal (pyInt c) with
    | none => simp [encode_set_protection_params3, hb1] at h
    | some b1 =>
      cases hb2 : byteVal (pyInt d) with
      | none => simp [encode_set_protection_params3, hb1, hb2] at h
      | some b2 =>
        simp [encode_set_protection_params3, hb1, hb2] at h
        cases h
        simp [u16_be]
  · intro y mo d h mi s addr p henc
    cases hb1 : byteVal mo with
    | none => simp [encode_set_time, hb1] at henc
    | some b1 =>
      cases hb2 : byteVal d with
      | none => simp [encode_set_time, hb1, hb2] at henc
      | some b2 =>
        cases hb3 : byteVal h with
        | none => simp [encode_set_time, hb1, hb2, hb3] at henc
        | some b3 =>
          cases hb4 : byteVal mi with
          | none => simp [encode_set_time, hb1, hb2, hb3, hb4] at henc
          | some b4 =>
            cases hb5 : byteVal s with
            | none => simp [encode_set_time, hb1, hb2, hb3, hb4, hb5] at henc
            | some b5 =>
              simp [encode_set_time, hb1, hb2, hb3, hb4, hb5] at henc
              cases henc
              simp [u16_be]
  · intro m addr p h
    cases hb : byteVal m with
    | none => simp [encode_set_working_mode, hb] at h
    | some b =>
      simp [encode_set_working_mode, hb] at h
      cases h
      simp [pad8]
  · intro a b m addr p h
    cases h1 : i32_be (pyInt (a / resAt ((MODE_PARAMS m).getD []) 0)) with
    | none => simp [encode_set_mode_params12, h1] at h
    | some d1 =>
      cases h2 : i32_be (pyInt (b / resAt ((MODE_PARAMS m).getD []) 1)) with
      | none => simp [encode_set_mode_params12, h1, h2] at h
      | some d2 =>
        simp [encode_set_mode_params12, h1, h2] at h
        cases h
        simp [i32_be_shape _ _ h1, i32_be_shape _ _ h2]
  · intro a b m addr p h
    cases h1 : i32_be (pyInt (a / resAt ((MODE_PARAMS m).getD []) 2)) with
    | none => simp [encode_set_mode_params34, h1] at h
    | some d1 =>
      cases h2 : i32_be (pyInt (b / resAt ((MODE_PARAMS m).getD []) 3)) with
      | none => simp [encode_set_mode_params34, h1, h2] at h
      | some d2 =>
        simp [encode_set_mode_params34, h1, h2] at h
        cases h
        simp [i32_be_shape _ _ h1, i32_be_shape _ _ h2]
  · intro st cl au addr p h
    unfold encode_start_stop at h
    injection h with h
    subst h
    simp [pad8]
  · intro dv dc rs addr p h
    cases hb : byteVal rs with
    | none => simp [encode_heartbeat, hb] at h
    | some b =>
      simp [encode_heartbeat, hb] at h
      cases h
      simp [u16_be]
  · intro bv rp addr p h
    unfold encode_set_bus_voltage_reactive at h
    injection h with h
    subst h
    simp [u16_be]
  · intro a b c d addr p h
    unfold encode_set_io at h
    injection h with h
    subst h
    simp
  · intro en addr p h
    unfold encode_set_split_phase_enable at h
    injection h with h
    subst h
    simp [pad8]
  · intro ph addr p h
    cases hb : byteVal ph with
    | none => simp [encode_set_inverter_phase, hb] at h
    | some b =>
      simp [encode_set_inverter_phase, hb] at h
      cases h
      simp [pad8]
  · intro m pfq addr p h
    have hdm : pfq / (1/1000 : ℚ) = pfq * 1000 := by ring
    cases hb : byteVal m with
    | none => simp [encode_set_reactive_control, hb] at h
    | some b =>
      cases hp : i16_be (pyInt (pfq * 1000)) with
      | none => simp [encode_set_reactive_control, hb, hdm, hp] at h
      | some pfb =>
        simp [encode_set_reactive_control, hb, hdm, hp] at h
        cases h
        simp [i16_be_shape _ _ hp]
  · intro m addr p h
    cases hb : byteVal m with
    | none => simp [encode_set_grid_mode, hb] at h
    | some b =>
      simp [encode_set_grid_mode, hb] at h
      cases h
      simp [pad8]
  · intro m n hr addr p h
    cases hb1 : byteVal m with
    | none => simp [encode_set_module_parallel, hb1] at h
    | some b1 =>
      cases hb2 : byteVal n with
      | none => simp [encode_set_module_parallel, hb1, hb2] at h
      | some b2 =>
        simp [encode_set_module_parallel, hb1, hb2] at h
        cases h
        simp [u16_be]
  · intro a b c addr p h
    unfold encode_set_phase_power at h
    injection h with h
    subst h
    simp [u16_be]
  · intro dt addr p h
    cases hb : byteVal dt with
    | none => simp [encode_read_special_data, hb] at h
    | some b =>
      simp [encode_read_special_data, hb] at h
      cases h
      simp [pad8]

/-- C7 witness: the working-mode encoder at mode 2 emits 8 bytes with seven
zero tail bytes. -/
theorem C7_fixed_payload_length_witness :
    (pad8 [2]).length = 8 ∧ (pad8 [2]).drop 1 = List.replicate 7 0 :=
  C7_fixed_payload_length.2.2.2.2.2.1 2 PCS_DEFAULT_ADDR
    (make_tx_id 0x0B PCS_DEFAULT_ADDR, pad8 [2]) (by decide)

/-! ### C2: dispatcher totality -/

lemma u16_ex (data : List Nat) (off : Nat) (h : off + 2 ≤ data.length) :
    ∃ a, u16 data off = some a :=
  ⟨data.getD off 0 * 256 + data.getD (off + 1) 0, by simp [u16, h]⟩

lemma byteAt_ex (data : List Nat) (i : Nat) (h : i < data.length) :
    ∃ a, byteAt data i = some a :=
  ⟨data.getD i 0, by simp [byteAt, h]⟩

lemma u32_ex (data : List Nat) (off : Nat) (h : off + 4 ≤ data.length) :
    ∃ a, u32 data off = some a :=
  ⟨data.getD off 0 * 16777216 + data.getD (off + 1) 0 * 65536 +
     data.getD (off + 2) 0 * 256 + data.getD (off + 3) 0, by simp [u32, h]⟩

lemma i16_ex (data : List Nat) (off : Nat) (h : off + 2 ≤ data.length) :
    ∃ a, i16 data off = some a :=
  ⟨if data.getD off 0 * 256 + data.getD (off + 1) 0 < 32768
    then (data.getD off 0 * 256 + data.getD (off + 1) 0 : ℤ)
    else (data.getD off 0 * 256 + data.getD (off + 1) 0 : ℤ) - 65536,
   by simp [i16, h]⟩

lemma decode_protection_params1_total (data : List Nat) (h : 8 ≤ data.length) :
    (decode_protection_params1 data).isSome = true := by
  obtain ⟨a0, h0⟩ := u16_ex data 0 (by omega)
  obtain ⟨a2, h2⟩ := u16_ex data 2 (by omega)
  obtain ⟨a4, h4⟩ := u16_ex data 4 (by omega)
  obtain ⟨a6, h6⟩ := u16_ex data 6 (by omega)
  simp [decode_protection_params1, h0, h2, h4, h6]

lemma decode_protection_params2_total (data : List Nat) (h : 8 ≤ data.length) :
    (decode_protection_params2 data).isSome = true := by
  obtain ⟨a0, h0⟩ := u16_ex data 0 (by omega)
  obtain ⟨a2, h2⟩ := u16_ex data 2 (by omega)
  obtain ⟨a4, h4⟩ := u16_ex data 4 (by omega)
  obtain ⟨a6, h6⟩ := u16_ex data 6 (by omega)
  simp [decode_protection_params2, h0, h2, h4, h6]

lemma decode_protection_params3_total (data : List Nat) (h : 8 ≤ data.length) :
    (decode_protection_params3 data).isSome = true := by
  obtain ⟨a0, h0⟩ := u16_ex data 0 (by omega)
  obtain ⟨a2, h2⟩ := u16_ex data 2 (by omega)
  obtain ⟨a4, h4⟩ := byteAt_ex data 4 (by omega)
  obtain ⟨a5, h5⟩ := byteAt_ex data 5 (by omega)
  simp [decode_protection_params3, h0, h2, h4, h5]

lemma decode_dc_data_total (data : List Nat) (h : 8 ≤ data.length) :
    (decode_dc_data data).isSome = true := by
  obtain ⟨a0, h0⟩ := u16_ex data 0 (by omega)
  obtain ⟨a2, h2⟩ := u16_ex data 2 (by omega)
  obtain ⟨a4, h4⟩ := u16_ex data 4 (by omega)
  obtain ⟨a6, h6⟩ := u16_ex data 6 (by omega)
  simp [decode_dc_data, h0, h2, h4, h6]

lemma decode_capacity_energy_total (data : List Nat) (h : 8 ≤ data.length) :
    (decode_capacity_energy data).isSome = true := by
  obtain ⟨a0, h0⟩ := u16_ex data 0 (by omega)
  obtain ⟨a2, h2⟩ := u32_ex data 2 (by omega)
  obtain ⟨a6, h6⟩ := u16_ex data 6 (by omega)
  simp [decode_capacity_energy, h0, h2, h6]

lemma decode_status_total (data : List Nat) (h : 8 ≤ data.length) :
    (decode_status data).isSome = true := by
  obtain ⟨a0, h0⟩ := byteAt_ex data 0 (by omega)
  obtain ⟨a2, h2⟩ := u16_ex data 2 (by omega)
  simp [decode_status, h0, h2]

lemma decode_grid_voltage_total (data : List Nat) (h : 8 ≤ data.length) :
    (decode_grid_voltage data).isSome = true := by
  obtain ⟨a0, h0⟩ := u16_ex data 0 (by omega)
  obtain ⟨a2, h2⟩ := u16_ex data 2 (by omega)
  obtain ⟨a4, h4⟩ := u16_ex data 4 (by omega)
  simp [decode_grid_voltage, h0, h2, h4]

lemma decode_grid_current_total (data : List Nat) (h : 8 ≤ data.length) :
    (decode_grid_current data).isSome = true := by
  obtain ⟨a0, h0⟩ := u16_ex data 0 (by omega)
  obtain ⟨a2, h2⟩ := u16_ex data 2 (by omega)
  obtain ⟨a4, h4⟩ := u16_ex data 4 (by omega)
  obtain ⟨a6, h6⟩ := i16_ex data 6 (by omega)
  simp [decode_grid_current, h0, h2, h4, h6]

lemma decode_system_power_total (data : List Nat) (h : 8 ≤ data.length) :
    (decode_system_power data).isSome = true := by
  obtain ⟨a0, h0⟩ := u16_ex data 0 (by omega)
  obtain ⟨a2, h2⟩ := u16_ex data 2 (by omega)
  obtain ⟨a4, h4⟩ := u16_ex data 4 (by omega)
  obtain ⟨a6, h6⟩ := u16_ex data 6 (by omega)
  simp [decode_system_power, h0, h2, h4, h6]

lemma decode_load_voltage_total (data : List Nat) (h : 8 ≤ data.length) :
    (decode_load_voltage data).isSome = true := by
  obtain ⟨a0, h0⟩ := u16_ex data 0 (by omega)
  obtain ⟨a2, h2⟩ := u16_ex data 2 (by omega)
  obtain ⟨a4, h4⟩ := u16_ex data 4 (by omega)
  simp [decode_load_voltage, h0, h2, h4]

lemma decode_load_current_total (data : List Nat) (h : 8 ≤ data.length) :
    (decode_load_current data).isSome = true := by
  obtain ⟨a0, h0⟩ := u16_ex data 0 (by omega)
  obtain ⟨a2, h2⟩ := u16_ex data 2 (by omega)
  obtain ⟨a4, h4⟩ := u16_ex data 4 (by omega)
  simp [decode_load_current, h0, h2, h4]

lemma decode_load_power_total (data : List Nat) (h : 8 ≤ data.length) :
    (decode_load_power data).isSome = true := by
  obtain ⟨a0, h0⟩ := u16_ex data 0 (by omega)
  obtain ⟨a2, h2⟩ := u16_ex data 2 (by omega)
  obtain ⟨a4, h4⟩ := u16_ex data 4 (by omega)
  simp [decode_load_power, h0, h2, h4]

lemma decode_phase_power_total (data : List Nat) (ph : String)
    (h : 8 ≤ data.length) : (decode_phase_power data ph).isSome = true := by
  obtain ⟨a0, h0⟩ := u16_ex data 0 (by omega)
  obtain ⟨a2, h2⟩ := u16_ex data 2 (by omega)
  obtain ⟨a4, h4⟩ := u16_ex data 4 (by omega)
  simp [decode_phase_power, h0, h2, h4]

lemma decode_high_res_dc_total (data : List Nat) (h : 8 ≤ data.length) :
    (decode_high_res_dc data).isSome = true := by
  obtain ⟨a0, h0⟩ := u32_ex data 0 (by omega)
  obtain ⟨a4, h4⟩ := u32_ex data 4 (by omega)
  simp [decode_high_res_dc, h0, h4]

lemma decode_io_ad_total (data : List Nat) (h : 8 ≤ data.length) :
    (decode_io_ad data).isSome = true := by
  obtain ⟨a0, h0⟩ := byteAt_ex data 0 (by omega)
  obtain ⟨a1, h1⟩ := byteAt_ex data 1 (by omega)
  obtain ⟨a2, h2⟩ := byteAt_ex data 2 (by omega)
  obtain ⟨a3, h3⟩ := byteAt_ex data 3 (by omega)
  obtain ⟨a4, h4⟩ := u16_ex data 4 (by omega)
  obtain ⟨a6, h6⟩ := u16_ex data 6 (by omega)
  simp [decode_io_ad, h0, h1, h2, h3, h4, h6]

lemma decode_set_reply_total (data : List Nat) (h : 8 ≤ data.length) :
    (decode_set_reply data).isSome = true := by
  cases data with
  | nil => simp at h
  | cons b rest => simp [decode_set_reply]

lemma decode_version_total (data : List Nat) (h : 8 ≤ data.length) :
    (decode_version data).isSome = true := by
  obtain ⟨a0, h0⟩ := byteAt_ex data 0 (by omega)
  obtain ⟨a1, h1⟩ := byteAt_ex data 1 (by omega)
  obtain ⟨a2, h2⟩ := byteAt_ex data 2 (by omega)
  obtain ⟨a3, h3⟩ := byteAt_ex data 3 (by omega)
  obtain ⟨a4, h4⟩ := byteAt_ex data 4 (by omega)
  obtain ⟨a5, h5⟩ := byteAt_ex data 5 (by omega)
  simp [decode_version, h0, h1, h2, h3, h4, h5]

lemma rxDecoders_total (pf : Nat) (dec : List Nat → Option RxDecoded)
    (sf : Option String) (h : rxDecoders pf = some (dec, sf))
    (data : List Nat) (hlen : 8 ≤ data.length) : (dec data).isSome = true := by
  unfold rxDecoders at h
  split at h <;>
    first
      | exact Option.noConfusion h
      | (cases h
         simp [decode_protection_params1_total data hlen,
           decode_protection_params2_total data hlen,
           decode_protection_params3_total data hlen,
           decode_set_reply_total data hlen,
           decode_dc_data_total data hlen,
           decode_capacity_energy_total data hlen,
           decode_status_total data hlen,
           decode_grid_voltage_total data hlen,
           decode_grid_current_total data hlen,
           decode_system_power_total data hlen,
           decode_load_voltage_total data hlen,
           decode_load_current_total data hlen,
           decode_load_power_total data hlen,
           decode_io_ad_total data hlen,
           decode_high_res_dc_total data hlen])

/-- C2 counterexample: the claim quantifies over *every* byte payload, but
for a recognized command code (0x11, DC data) and an empty payload the
selected decoder raises (struct.error), so `decode_rx_message` does not
return normally. -/
theorem C2_dispatch_counterexample :
    decode_rx_message (build_can_id 0x11 0xB4 0xFA CAN_PRIORITY) [] = none := by
  decide

/-- C2 amended: for every 29-bit identifier and every payload of at least 8
bytes (every well-formed frame) the dispatcher returns normally, and for any
identifier whose PF is not a recognized code it returns (None, None) for any
payload whatsoever. -/
theorem C2_dispatch_amended :
    (∀ can_id data, 8 ≤ data.length →
      (decode_rx_message can_id data).isSome = true) ∧
    (∀ can_id data, rxDecoders ((parse_can_id can_id).pf) = none →
      (parse_can_id can_id).pf ≠ 0x23 → (parse_can_id can_id).pf ≠ 0x24 →
      (parse_can_id can_id).pf ≠ 0x25 → (parse_can_id can_id).pf ≠ 0x34 →
      (parse_can_id can_id).pf ≠ 0x35 →
      decode_rx_message can_id data = some (none, none)) := by
  constructor
  · intro can_id data hlen
    simp only [decode_rx_message]
    split_ifs with h23 h24 h25 h34 h35
    · simp [decode_phase_power_total data "A" hlen]
    · simp [decode_phase_power_total data "B" hlen]
    · simp [decode_phase_power_total data "C" hlen]
    · simp [decode_version_total data hlen]
    · simp [decode_version_total data hlen]
    · cases hdec : rxDecoders ((parse_can_id can_id).pf) with
      | none => simp
      | some entry =>
        obtain ⟨dec, sf⟩ := entry
        simp [rxDecoders_total _ _ _ hdec data hlen]
  · intro can_id data h1 h23 h24 h25 h34 h35
    simp [decode_rx_message, h23, h24, h25, h34, h35, h1]

/-- C2 witness: an unknown command code 0xFF with a full 8-byte payload is
dispatched normally to (None, None). -/
theorem C2_dispatch_witness :
    (decode_rx_message (build_can_id 0xFF 0xB4 0xFA CAN_PRIORITY)
        [1, 2, 3, 4, 5, 6, 7, 8]).isSome = true ∧
    decode_rx_message (build_can_id 0xFF 0xB4 0xFA CAN_PRIORITY)
        [1, 2, 3, 4, 5, 6, 7, 8] = some (none, none) :=
  ⟨C2_dispatch_amended.1 _ _ (by decide),
   C2_dispatch_amended.2 _ _ rfl (by decide) (by decide) (by decide)
     (by decide) (by decide)⟩

/-! ### C8: receive-path effect order and observer isolation -/

lemma pairwise_const_phase (l : List RxEvent) (c : Nat)
    (h : ∀ e ∈ l, evPhase e = c) :
    l.Pairwise (fun a b => evPhase a ≤ evPhase b) := by
  induction l with
  | nil => exact List.Pairwise.nil
  | cons x xs ih =>
    refine List.Pairwise.cons ?_ (ih fun e he => h e (List.mem_cons_of_mem _ he))
    intro y hy
    rw [h x (List.mem_cons_self _ _), h y (List.mem_cons_of_mem _ hy)]

lemma phaseOrdered_segments (l1 l2 l3 : List RxEvent)
    (h1 : ∀ e ∈ l1, evPhase e = 0) (h2 : ∀ e ∈ l2, evPhase e = 1)
    (h3 : ∀ e ∈ l3, evPhase e = 2) : phaseOrdered (l1 ++ l2 ++ l3) := by
  unfold phaseOrdered
  rw [List.pairwise_append]
  refine ⟨?_, pairwise_const_phase l3 2 h3, ?_⟩
  · rw [List.pairwise_append]
    refine ⟨pairwise_const_phase l1 0 h1, pairwise_const_phase l2 1 h2, ?_⟩
    intro a ha b hb
    rw [h1 a ha, h2 b hb]
    omega
  · intro a ha b hb
    rw [h3 b hb]
    rcases List.mem_append.mp ha with hm | hm
    · rw [h1 a hm]; omega
    · rw [h2 a hm]; omega

lemma runCallbacks_phase (cbs : List Callback) (name : String)
    (d : Option RxDecoded) :
    ∀ i, ∀ e ∈ runCallbacks cbs name d i, evPhase e = 2 := by
  induction cbs with
  | nil => intro i e he; simp [runCallbacks] at he
  | cons cb rest ih =>
    intro i e he
    simp only [runCallbacks] at he
    rcases List.mem_cons.mp he with hm | hm
    · cases hcb : cb name d <;> rw [hcb] at hm <;> subst hm <;> rfl
    · exact ih (i + 1) e hm

lemma runCallbacks_length (cbs : List Callback) (name : String)
    (d : Option RxDecoded) :
    ∀ i, (runCallbacks cbs name d i).length = cbs.length := by
  induction cbs with
  | nil => intro i; rfl
  | cons cb rest ih =>
    intro i
    simp only [runCallbacks, List.length_cons, ih (i + 1)]

lemma runCallbacks_invoked (cbs : List Callback) (name : String)
    (d : Option RxDecoded) :
    ∀ i j, j < cbs.length →
      RxEvent.callbackOk (i + j) ∈ runCallbacks cbs name d i ∨
      RxEvent.callbackErr (i + j) ∈ runCallbacks cbs name d i := by
  induction cbs with
  | nil => intro i j hj; simp at hj
  | cons cb rest ih =>
    intro i j hj
    cases j with
    | zero =>
      cases hcb : cb name d with
      | ok u => left; simp [runCallbacks, hcb]
      | error u => right; simp [runCallbacks, hcb]
    | succ j2 =>
      have hmem := ih (i + 1) j2 (by simpa using hj)
      have harith : i + 1 + j2 = i + (j2 + 1) := by omega
      rw [harith] at hmem
      rcases hmem with hm | hm
      · left
        simp only [runCallbacks]
        exact List.mem_cons_of_mem _ hm
      · right
        simp only [runCallbacks]
        exact List.mem_cons_of_mem _ hm

lemma countP_phase2_zero (l : List RxEvent) (h : ∀ e ∈ l, evPhase e ≠ 2) :
    l.countP (fun e => evPhase e == 2) = 0 := by
  rw [List.countP_eq_zero]
  intro a ha
  simpa using h a ha

/-- C8: processing one received frame performs its visible effects in the
order state-update, waiter-wakeup, observer notifications; and when the frame
decoded to a named record, every registered observer is invoked exactly once
— an observer that raises is caught (`callbackErr`) and neither prevents the
remaining observers from running nor terminates the receive loop (the
processing function still returns its successor state). -/
theorem C8_rx_effect_order :
    ∀ m cbs can_id data,
      phaseOrdered (processFrame m cbs can_id data).2 ∧
      (∀ name d, decode_rx_message can_id data = some (some name, d) →
        (processFrame m cbs can_id data).2.countP (fun e => evPhase e == 2)
            = cbs.length ∧
        ∀ j, j < cbs.length →
          RxEvent.callbackOk j ∈ (processFrame m cbs can_id data).2 ∨
          RxEvent.callbackErr j ∈ (processFrame m cbs can_id data).2) := by
  intro m cbs can_id data
  cases hd : decode_rx_message can_id data with
  | none =>
    constructor
    · simp [processFrame, hd, phaseOrdered]
    · intro name d h
      exact Option.noConfusion h
  | some nd =>
    obtain ⟨nameOpt, decoded⟩ := nd
    cases nameOpt with
    | none =>
      constructor
      · simp [processFrame, hd, phaseOrdered]
      · intro name d h
        simp at h
    | some name =>
      have hst : ∀ e ∈ (match decoded with
          | some dv =>
            if pcsHasSlot name then
              (setSlot m.state name dv, [RxEvent.stateUpdate name])
            else (m.state, ([] : List RxEvent))
          | none => (m.state, ([] : List RxEvent))).2, evPhase e = 0 := by
        cases decoded with
        | none => simp
        | some dv =>
          split_ifs with hs
          · intro e he
            simp only [List.mem_singleton] at he
            subst he
            rfl
          · simp
      have hwk : ∀ e ∈ (if m.pending.contains ((parse_can_id can_id).pf) then
            (((parse_can_id can_id).pf, decoded) :: m.lastReply,
              [RxEvent.wakeWaiter ((parse_can_id can_id).pf)])
          else (m.lastReply, ([] : List RxEvent))).2, evPhase e = 1 := by
        split_ifs with hw
        · intro e he
          simp only [List.mem_singleton] at he
          subst he
          rfl
        · simp
      constructor
      · simp only [processFrame, hd, Option.getD_some]
        exact phaseOrdered_segments _ _ _ hst hwk
          (runCallbacks_phase cbs name decoded 0)
      · intro name2 d h
        simp only [Option.some.injEq, Prod.mk.injEq] at h
        obtain ⟨h1, h2⟩ := h
        subst h2
        constructor
        · simp only [processFrame, hd, Option.getD_some]
          rw [List.countP_append, List.countP_append]
          rw [countP_phase2_zero _ (fun e he => by rw [hst e he]; omega),
            countP_phase2_zero _ (fun e he => by rw [hwk e he]; omega)]
          rw [List.countP_eq_length.mpr
            (fun e he => by
              simp [runCallbacks_phase cbs name decoded 0 e he])]
          simp [runCallbacks_length cbs name decoded 0]
        · intro j hj
          have hmem := runCallbacks_invoked cbs name decoded 0 j hj
          simp only [Nat.zero_add] at hmem
          simp only [processFrame, hd, Option.getD_some]
          rcases hmem with hm | hm
          · exact Or.inl (List.mem_append_right _ hm)
          · exact Or.inr (List.mem_append_right _ hm)

/-- C8 witness: a status frame processed with one raising observer and one
normal observer produces exactly two observer events. -/
theorem C8_rx_effect_order_witness :
    (processFrame ⟨PCSState.init, [], []⟩ [cbAlwaysRaises, cbAlwaysSucceeds]
        (build_can_id 0x13 0xB4 0xFA CAN_PRIORITY)
        [2, 0, 0, 5, 0, 0, 0, 0]).2.countP (fun e => evPhase e == 2) = 2 :=
  ((C8_rx_effect_order ⟨PCSState.init, [], []⟩ [cbAlwaysRaises, cbAlwaysSucceeds]
      (build_can_id 0x13 0xB4 0xFA CAN_PRIORITY)
      [2, 0, 0, 5, 0, 0, 0, 0]).2 "status"
    (some (RxDecoded.status ⟨2, 5⟩)) (by decide)).1

/-! ### C10: per-frame effect on the aggregated state -/

lemma setSlot_dc (s : PCSState) (name : String) (d : RxDecoded)
    (h : name ≠ "dc") : (setSlot s name d).dc = s.dc := by
  unfold setSlot
  simp [apply_ite (fun x : PCSState => x.dc), h]

lemma setSlot_dc_hires (s : PCSState) (name : String) (d : RxDecoded)
    (h : name ≠ "dc_hires") : (setSlot s name d).dc_hires = s.dc_hires := by
  unfold setSlot
  simp [apply_ite (fun x : PCSState => x.dc_hires), h]

lemma setSlot_capacity_energy (s : PCSState) (name : String) (d : RxDecoded)
    (h : name ≠ "capacity_energy") :
    (setSlot s name d).capacity_energy = s.capacity_energy := by
  unfold setSlot
  simp [apply_ite (fun x : PCSState => x.capacity_energy), h]

lemma setSlot_status (s : PCSState) (name : String) (d : RxDecoded)
    (h : name ≠ "status") : (setSlot s name d).status = s.status := by
  unfold setSlot
  simp [apply_ite (fun x : PCSState => x.status), h]

lemma setSlot_grid_voltage (s : PCSState) (name : String) (d : RxDecoded)
    (h : name ≠ "grid_voltage") :
    (setSlot s name d).grid_voltage = s.grid_voltage := by
  unfold setSlot
  simp [apply_ite (fun x : PCSState => x.grid_voltage), h]

lemma setSlot_grid_current (s : PCSState) (name : String) (d : RxDecoded)
    (h : name ≠ "grid_current") :
    (setSlot s name d).grid_current = s.grid_current := by
  unfold setSlot
  simp [apply_ite (fun x : PCSState => x.grid_current), h]

lemma setSlot_system_power (s : PCSState) (name : String) (d : RxDecoded)
    (h : name ≠ "system_power") :
    (setSlot s name d).system_power = s.system_power := by
  unfold setSlot
  simp [apply_ite (fun x : PCSState => x.system_power), h]

lemma setSlot_load_voltage (s : PCSState) (name : String) (d : RxDecoded)
    (h : name ≠ "load_voltage") :
    (setSlot s name d).load_voltage = s.load_voltage := by
  unfold setSlot
  simp [apply_ite (fun x : PCSState => x.load_voltage), h]

lemma setSlot_load_current (s : PCSState) (name : String) (d : RxDecoded)
    (h : name ≠ "load_current") :
    (setSlot s name d).load_current = s.load_current := by
  unfold setSlot
  simp [apply_ite (fun x : PCSState => x.load_current), h]

lemma setSlot_load_power (s : PCSState) (name : String) (d : RxDecoded)
    (h : name ≠ "load_power") :
    (setSlot s name d).load_power = s.load_power := by
  unfold setSlot
  simp [apply_ite (fun x : PCSState => x.load_power), h]

lemma setSlot_phase_a_power (s : PCSState) (name : String) (d : RxDecoded)
    (h : name ≠ "phase_a_power") :
    (setSlot s name d).phase_a_power = s.phase_a_power := by
  unfold setSlot
  simp [apply_ite (fun x : PCSState => x.phase_a_power), h]

lemma setSlot_phase_b_power (s : PCSState) (name : String) (d : RxDecoded)
    (h : name ≠ "phase_b_power") :
    (setSlot s name d).phase_b_power = s.phase_b_power := by
  unfold setSlot
  simp [apply_ite (fun x : PCSState => x.phase_b_power), h]

lemma setSlot_phase_c_power (s : PCSState) (name : String) (d : RxDecoded)
    (h : name ≠ "phase_c_power") :
    (setSlot s name d).phase_c_power = s.phase_c_power := by
  unfold setSlot
  simp [apply_ite (fun x : PCSState => x.phase_c_power), h]

lemma setSlot_io_ad (s : PCSState) (name : String) (d : RxDecoded)
    (h : name ≠ "io_ad") : (setSlot s name d).io_ad = s.io_ad := by
  unfold setSlot
  simp [apply_ite (fun x : PCSState => x.io_ad), h]

lemma getSlot_setSlot_ne (s : PCSState) (name : String) (d : RxDecoded)
    (n : String) (h : n ≠ name) : getSlot (setSlot s name d) n = getSlot s n := by
  by_cases h1 : n = "dc"
  · subst h1; simp [getSlot, setSlot_dc s name d fun heq => h heq.symm]
  by_cases h2 : n = "dc_hires"
  · subst h2; simp [getSlot, setSlot_dc_hires s name d fun heq => h heq.symm]
  by_cases h3 : n = "capacity_energy"
  · subst h3
    simp [getSlot, setSlot_capacity_energy s name d fun heq => h heq.symm]
  by_cases h4 : n = "status"
  · subst h4; simp [getSlot, setSlot_status s name d fun heq => h heq.symm]
  by_cases h5 : n = "grid_voltage"
  · subst h5
    simp [getSlot, setSlot_grid_voltage s name d fun heq => h heq.symm]
  by_cases h6 : n = "grid_current"
  · subst h6
    simp [getSlot, setSlot_grid_current s name d fun heq => h heq.symm]
  by_cases h7 : n = "system_power"
  · subst h7
    simp [getSlot, setSlot_system_power s name d fun heq => h heq.symm]
  by_cases h8 : n = "load_voltage"
  · subst h8
    simp [getSlot, setSlot_load_voltage s name d fun heq => h heq.symm]
  by_cases h9 : n = "load_current"
  · subst h9
    simp [getSlot, setSlot_load_current s name d fun heq => h heq.symm]
  by_cases h10 : n = "load_power"
  · subst h10
    simp [getSlot, setSlot_load_power s name d fun heq => h heq.symm]
  by_cases h11 : n = "phase_a_power"
  · subst h11
    simp [getSlot, setSlot_phase_a_power s name d fun heq => h heq.symm]
  by_cases h12 : n = "phase_b_power"
  · subst h12
    simp [getSlot, setSlot_phase_b_power s name d fun heq => h heq.symm]
  by_cases h13 : n = "phase_c_power"
  · subst h13
    simp [getSlot, setSlot_phase_c_power s name d fun heq => h heq.symm]
  by_cases h14 : n = "io_ad"
  · subst h14; simp [getSlot, setSlot_io_ad s name d fun heq => h heq.symm]
  simp [getSlot, h1, h2, h3, h4, h5, h6, h7, h8, h9, h10, h11, h12, h13, h14]

lemma getSlot_setSlot_self (s : PCSState) (name : String) (d : RxDecoded)
    (h : pcsHasSlot name = true) : getSlot (setSlot s name d) name = some d := by
  simp only [pcsHasSlot, pcsSlotNames] at h
  rw [List.contains_eq_any_beq] at h
  simp only [List.any_cons, List.any_nil, Bool.or_eq_true, beq_iff_eq,
    Bool.or_eq_false_iff] at h
  rcases h with h | h | h | h | h | h | h | h | h | h | h | h | h | h | h
  all_goals first
    | (subst h; rfl)
    | exact Bool.noConfusion h

set_option maxRecDepth 8192 in
/-- C10: processing one received frame replaces at most the one aggregated
state slot named by the decoded message kind, leaves every other slot
untouched, and leaves the whole state unchanged when the frame decodes to a
kind that is not a `PCSState` field — in particular "arm_version",
"dsp_version" and every "pf_0xNN" reply name — or does not decode at all. -/
theorem C10_frame_effect :
    (∀ m cbs can_id data name d,
      decode_rx_message can_id data = some (some name, some d) →
      (pcsHasSlot name = true →
        (processFrame m cbs can_id data).1.state = setSlot m.state name d ∧
        getSlot ((processFrame m cbs can_id data).1.state) name = some d ∧
        ∀ n, n ≠ name →
          getSlot ((processFrame m cbs can_id data).1.state) n =
            getSlot m.state n) ∧
      (pcsHasSlot name = false →
        (processFrame m cbs can_id data).1.state = m.state)) ∧
    (∀ m cbs can_id data, decode_rx_message can_id data = none →
      (processFrame m cbs can_id data).1.state = m.state) ∧
    (∀ m cbs can_id data d, decode_rx_message can_id data = some (none, d) →
      (processFrame m cbs can_id data).1.state = m.state) ∧
    pcsHasSlot "arm_version" = false ∧
    pcsHasSlot "dsp_version" = false ∧
    (∀ pf, pf < 256 → pcsHasSlot (pfHexName pf) = false) := by
  refine ⟨?_, ?_, ?_, by decide, by decide, by decide⟩
  · intro m cbs can_id data name d hdec
    constructor
    · intro hs
      have hstate : (processFrame m cbs can_id data).1.state =
          setSlot m.state name d := by
        simp [processFrame, hdec, hs]
      refine ⟨hstate, ?_, ?_⟩
      · rw [hstate]
        exact getSlot_setSlot_self m.state name d hs
      · intro n hn
        rw [hstate]
        exact getSlot_setSlot_ne m.state name d n hn
    · intro hs
      simp [processFrame, hdec, hs]
  · intro m cbs can_id data hdec
    simp [processFrame, hdec]
  · intro m cbs can_id data d hdec
    simp [processFrame, hdec]

/-- C10 witness: a decoded status frame replaces exactly the "status" slot. -/
theorem C10_frame_effect_witness :
    getSlot ((processFrame ⟨PCSState.init, [], []⟩ []
        (build_can_id 0x13 0xB4 0xFA CAN_PRIORITY)
        [2, 0, 0, 5, 0, 0, 0, 0]).1.state) "status"
      = some (RxDecoded.status ⟨2, 5⟩) :=
  ((C10_frame_effect.1 ⟨PCSState.init, [], []⟩ []
      (build_can_id 0x13 0xB4 0xFA CAN_PRIORITY) [2, 0, 0, 5, 0, 0, 0, 0]
      "status" (RxDecoded.status ⟨2, 5⟩) (by decide)).1 (by decide)).2.1

end PCS
